import Mathlib

/-!
Verification of the ClockPoint backend token / invitation / group-membership
core against its natural-language specification.

The Lean definitions below are a shallow embedding of:
  - backend/app/core/jwt.py            (token issuance, credential resolution)
  - backend/app/models/token.py        (token model)
  - backend/app/routers/v1/endpoints/http/group.py  (invite / join / kick / leave)
  - backend/app/routers/v1/endpoints/http/user.py   (activate / password / user invite)

Int is modelled as an integer number of minutes.  A JWT is modelled
abstractly: the encoded string of a payload is represented by the payload
itself (JWT encoding is injective for a fixed key), and a presented
credential is either a well-signed payload or garbage (bad signature).

Parts of the repository that the endpoints call but whose sources are not
available (the pydantic base models, app/repositories/&ast;, app/models/group.py,
app/utils/group.py, the enums and settings modules) are modelled from the
spec; each such definition is marked `Modelled from the spec:` in its doc
comment.
-/

namespace ClockPoint


/-- Modelled from the spec: app/models/enums/token_subject.py is not under
src/; §3 lists the subject purpose enum ACTIVATE, RECOVER, USER_INVITE,
GROUP_INVITE_MEMBER, GROUP_INVITE_CO_OWNER. -/
inductive TokenSubject where
  | activate
  | recover
  | userInvite
  | groupInviteMember
  | groupInviteCoOwner
deriving DecidableEq, Repr

/-- Modelled from the spec: app/models/enums/group_role.py is not under src/;
the role matrix of §4.4 uses OWNER, CO_OWNER, MEMBER. -/
inductive GroupRole where
  | owner
  | coOwner
  | member
deriving DecidableEq, Repr

/-- The claim dictionary passed to `TokenUtils.create_token` by
`wrap_user_db_data_into_token` (jwt.py lines 32-41): email, username,
group_id, user_email_invited. -/
structure Claims where
  email : String
  username : String
  group_id : Option String := none
  user_email_invited : Option String := none
deriving DecidableEq, Repr

/-- A decoded JWT payload: the claims plus the `exp` and `subject` entries
added by `create_token` (jwt.py line 53). -/
structure JwtPayload where
  email : String
  username : String
  group_id : Option String
  user_email_invited : Option String
  exp : Int
  subject : TokenSubject
deriving DecidableEq, Repr

/-- The claim part of a payload (what §8's round-trip property says `verify`
returns). -/
def JwtPayload.claimsOf (p : JwtPayload) : Claims :=
  { email := p.email, username := p.username,
    group_id := p.group_id, user_email_invited := p.user_email_invited }

/-- A presented token string: either the encoding of a payload signed with
the server secret, or a string that does not verify (`PyJWTError` on
decode). -/
inductive Presented where
  | signed (p : JwtPayload)
  | garbage
deriving DecidableEq, Repr

/-- Spec §7 error taxonomy.  Each constructor is used at exactly the raise
sites of the source noted in the defs below (all StarletteHTTPException
raises). -/
inductive Err where
  | missingCredential       -- jwt.py 97-99, detail "Invalid header"
  | invalidPrefix           -- jwt.py, details "Invalid authorization/activation/recover/invitation"
  | invalidSignature        -- PyJWT decode failure: bad signature
  | expired                 -- PyJWT decode failure: ExpiredSignatureError
  | couldNotValidate        -- jwt.py 112-114 / 152-154: except PyJWTError
  | notAnInvitation         -- jwt.py 147-149, detail "This is not an invitation token"
  | userNotFound            -- "This user doesn't exist" (404)
  | userAlreadyExists       -- user.py 202-204, detail "This user already exist"
  | tokenNotFound           -- token repository lookup miss
  | groupNotFound           -- group repository lookup miss
  | tokenAlreadyUsed        -- group.py 200-202 / user.py 254-256 "Invitation token already used"; user.py 97-99 (guard: used_at set; source detail text reads "Token has expired")
  | invitationMismatch      -- group.py 233-235 / user.py 251-253, detail "This user was not invited"
  | notAuthorized           -- group.py 181-183, 151-154, 307-313
  | ownerRoleUnique         -- group.py 126-129, detail "Owner role is unique"
  | alreadyInGroup          -- group.py 144-147, detail "User already in group"
  | notInGroup              -- group.py 304-306, detail "User is not in the group"
  | cannotKickOwner         -- group.py 286-290
  | coOwnerCannotKickCoOwner -- group.py 291-295
  | invalidActivation       -- user.py 100-102, detail "Invalid activation"
  | invalidRecovery         -- user.py 166-168, detail "Invalid recovery"
deriving DecidableEq, Repr

/-- Result of a request-scoped operation: a value, a structured HTTP
rejection, or an unhandled Python exception (a crash: 500, no structured
body). -/
inductive Outcome (α : Type) where
  | ok (a : α)
  | err (e : Err)
  | crash
deriving DecidableEq, Repr

/-- Modelled from the spec: app/models/user.py is not under src/; §3 gives a
User as email (unique), username (unique), activation flag, password. -/
structure UserDB where
  email : String
  username : String
  is_active : Bool := false
  password : String := ""
deriving DecidableEq, Repr

/-- `UserTokenWrapper` (app/models/user.py, not under src/): the resolved
user plus the originating token (`UserTokenWrapper(**user_db.dict(),
token=token)`, jwt.py lines 122/161). -/
structure UserTokenWrapper where
  user : UserDB
  token : Presented
deriving DecidableEq, Repr

/-- Modelled from the spec: the stored token record.  src token.py declares
only email, username (TokenPayload) plus token, subject, expire_datetime
(TokenDB); the spec data model (§3) additionally gives the claims group-id
and invited-email, the issued-at timestamp, and a nullable used-at, and the
pydantic base-model configuration and app/repositories/token.py that decide
the stored shape are not under src/.  The `token` field is the encoded JWT
(the store key). -/
structure TokenDB where
  email : String
  username : String
  group_id : Option String
  user_email_invited : Option String
  subject : TokenSubject
  expire_datetime : Int
  token : JwtPayload
  created_at : Int
  used_at : Option Int := none
deriving DecidableEq, Repr

/-- The token model exactly as declared in src/backend/app/models/token.py
(TokenPayload: email, username; TokenDB adds token, subject,
expire_datetime).  Kept to state the declared-model / read-set gap of the
spec audit. -/
structure TokenDBDeclared where
  email : String
  username : String
  token : JwtPayload
  subject : TokenSubject
  expire_datetime : Int
deriving DecidableEq, Repr

/-- The declared projection of a stored record. -/
def TokenDB.declared (r : TokenDB) : TokenDBDeclared :=
  { email := r.email, username := r.username, token := r.token,
    subject := r.subject, expire_datetime := r.expire_datetime }

/-- Modelled from the spec: app/models/group.py is not under src/; §3 gives
a Group as identifier (held beside the record), name, exactly one owner, a
set of co-owners and a set of members.  Users are referenced by email. -/
structure GroupDB where
  name : String
  owner : String
  co_owners : List String
  members : List String
deriving DecidableEq, Repr

/-- `GroupDB.user_is_owner` (app/models/group.py, not under src/;
membership predicates modelled from the spec role structure). -/
def GroupDB.user_is_owner (g : GroupDB) (e : String) : Bool :=
  g.owner == e

/-- `GroupDB.user_is_co_owner`. -/
def GroupDB.user_is_co_owner (g : GroupDB) (e : String) : Bool :=
  g.co_owners.contains e

/-- `GroupDB.user_is_member`. -/
def GroupDB.user_is_member (g : GroupDB) (e : String) : Bool :=
  g.members.contains e

/-- `GroupDB.user_in_group`: present in any role. -/
def GroupDB.user_in_group (g : GroupDB) (e : String) : Bool :=
  g.user_is_owner e || g.user_is_co_owner e || g.user_is_member e

/-- The persistent store visible to the endpoints: user directory, group
directory (id-keyed), token store. -/
structure DBState where
  users : List UserDB
  groups : List (String × GroupDB)
  tokens : List TokenDB
deriving DecidableEq, Repr

/-! ### Settings (app/core/config.py, not under src/)

Modelled from the spec §6: process-wide read-only configuration.  The
concrete durations are configured values; only their positivity matters to
the statements below. -/

def JWT_TOKEN_PREFIX : String := "Token"
def ACCESS_TOKEN_EXPIRE_MINUTES : Int := 30
def GROUP_INVITE_MEMBER_TOKEN_EXPIRE_MINUTES : Int := 30
def GROUP_INVITE_CO_OWNER_TOKEN_EXPIRE_MINUTES : Int := 30
def USER_INVITE_TOKEN_EXPIRE_MINUTES : Int := 30

/-! ### Repositories (app/repositories/user.py, group.py, token.py — not
under src/; modelled from the spec §6 collaborator interfaces). -/

/-- Modelled from the spec: User Directory `find_by_email`. -/
def findUserByEmail (s : DBState) (e : String) : Option UserDB :=
  s.users.find? (fun u => u.email == e)

/-- `get_user_by_email`: raises 404 "This user doesn't exist" on a miss
(behaviour observed at its call sites in src, e.g. group.py 136-140). -/
def get_user_by_email (s : DBState) (e : String) : Outcome UserDB :=
  match findUserByEmail s e with
  | some u => .ok u
  | none => .err .userNotFound

/-- Modelled from the spec: Group Directory `find_by_id`. -/
def getGroupById (s : DBState) (gid : String) : Outcome GroupDB :=
  match s.groups.find? (fun p => p.1 == gid) with
  | some p => .ok p.2
  | none => .err .groupNotFound

/-- `get_group_by_id` as called from `join` (group.py 206-208) with
`token_db.group_id`, an optional claim. -/
def getGroupByOptId (s : DBState) (gid : Option String) : Outcome GroupDB :=
  match gid with
  | none => .err .groupNotFound
  | some gid => getGroupById s gid

/-- Modelled from the spec: Group Directory membership primitive
add-as-role; members and co-owners are sets (§3), so adding an
already-present user leaves the group unchanged.  `update_group` with a
`GroupUpdate` carrying a member or co_owner (group.py 210-223). -/
def addAsRole (g : GroupDB) (role : GroupRole) (e : String) : GroupDB :=
  match role with
  | .coOwner => if g.co_owners.contains e then g else { g with co_owners := g.co_owners ++ [e] }
  | .member => if g.members.contains e then g else { g with members := g.members ++ [e] }
  | .owner => g    -- never requested by any caller: the owner is fixed at creation

/-- Replace the group stored under `gid` by `f` of it. -/
def updateGroupInState (s : DBState) (gid : String) (f : GroupDB → GroupDB) : DBState :=
  { s with groups := s.groups.map (fun p => if p.1 == gid then (p.1, f p.2) else p) }

/-- Modelled from the spec: Group Directory remove primitive; `leave_group`
removes the user from whichever non-owner role they hold (the kick path
never invokes it on the owner). -/
def removeFromGroup (g : GroupDB) (e : String) : GroupDB :=
  { g with co_owners := g.co_owners.filter (fun x => x != e),
           members := g.members.filter (fun x => x != e) }

/-- Modelled from the spec: Token Store persist (`save_token`). -/
def save_token (s : DBState) (r : TokenDB) : DBState :=
  { s with tokens := s.tokens ++ [r] }

/-- Token Store lookup by encoded token. -/
def getTokenRec (s : DBState) (p : JwtPayload) : Option TokenDB :=
  s.tokens.find? (fun r => r.token == p)

/-- Modelled from the spec: repository `get_token` (token lookup used by the
consuming workflows); a presented credential keys the store by its payload. -/
def get_token_db (s : DBState) (t : Presented) : Outcome TokenDB :=
  match t with
  | .garbage => .err .tokenNotFound
  | .signed p =>
    match getTokenRec s p with
    | some r => .ok r
    | none => .err .tokenNotFound

/-- Modelled from the spec: repository `update_token` with a `TokenUpdate`
carrying `used_at` — marks consumption of the record keyed by `p`
(§3: mutated exactly once, to set used-at). -/
def update_token (s : DBState) (p : JwtPayload) (t : Int) : DBState :=
  { s with tokens := s.tokens.map (fun r => if r.token == p then { r with used_at := some t } else r) }

/-- `update_user(conn, user, UserUpdate(is_active=True))` (user.py 90-92). -/
def update_user_active (s : DBState) (e : String) : DBState :=
  { s with users := s.users.map (fun u => if u.email == e then { u with is_active := true } else u) }

/-- `update_user(conn, user, UserUpdate(password=password))` (user.py 156-158). -/
def update_user_password (s : DBState) (e pw : String) : DBState :=
  { s with users := s.users.map (fun u => if u.email == e then { u with password := pw } else u) }

/-! ### Token service (jwt.py TokenUtils) -/

/-- Python truthiness of the `expires_delta: timedelta = None` argument:
`None` and `timedelta(0)` are falsy, any nonzero duration is truthy
(jwt.py line 51 `if expires_delta:`). -/
def timedeltaTruthy : Option Int → Bool
  | none => false
  | some d => d != 0

/-- `TokenUtils.create_token` (jwt.py 45-66): computes the expiry (default
now + 10 minutes, overridden only by a *truthy* expires_delta), builds the
payload with `exp` and `subject`, signs it, and persists the record.
Returns the encoded JWT (the payload) and the stored record. -/
def create_token (data : Claims) (expires_delta : Option Int)
    (subject : TokenSubject) (now : Int) : JwtPayload × TokenDB :=
  let expire_datetime : Int :=
    if timedeltaTruthy expires_delta then now + expires_delta.getD 0 else now + 10
  let payload : JwtPayload :=
    { email := data.email, username := data.username,
      group_id := data.group_id, user_email_invited := data.user_email_invited,
      exp := expire_datetime, subject := subject }
  (payload,
   { email := data.email, username := data.username,
     group_id := data.group_id, user_email_invited := data.user_email_invited,
     subject := subject, expire_datetime := expire_datetime,
     token := payload, created_at := now, used_at := none })

/-- `TokenUtils.wrap_user_db_data_into_token` (jwt.py 22-43): builds the
claim set from the user record plus the optional group id and invited
email, issues the token and saves it. -/
def wrap_user_db_data_into_token (s : DBState) (user_db : UserDB)
    (subject : TokenSubject) (group_id : Option String)
    (user_email_invited : Option String) (token_expires_delta : Option Int)
    (now : Int) : JwtPayload × DBState :=
  let delta := match token_expires_delta with
    | none => some ACCESS_TOKEN_EXPIRE_MINUTES   -- the default argument value
    | some d => some d
  let (payload, rec) := create_token
    { email := user_db.email, username := user_db.username,
      group_id := group_id, user_email_invited := user_email_invited }
    delta subject now
  (payload, save_token s rec)

/-! ### Credential verification (jwt.py) -/

/-- PyJWT `decode` with the server secret: fails on a bad signature, fails
with ExpiredSignatureError once the embedded `exp` has passed (PyJWT treats
`exp <= now` as expired), otherwise yields the payload.  Purely
computational: no store access.  This is the spec's `verify`. -/
def decodeJwt (t : Presented) (now : Int) : Outcome JwtPayload :=
  match t with
  | .garbage => .err .invalidSignature
  | .signed p => if p.exp ≤ now then .err .expired else .ok p

/-- `get_token` (jwt.py 69-99): channel extraction.  Each channel value is
an already-split `(prefix, token)` pair; an empty header is `none`.  No
channel at all raises the structured 403 "Invalid header". -/
def get_token (authorization activation recovery : Option (String × Presented)) :
    Outcome Presented :=
  match authorization with
  | some (pfx, t) => if pfx == JWT_TOKEN_PREFIX then .ok t else .err .invalidPrefix
  | none =>
    match activation with
    | some (pfx, t) => if pfx == JWT_TOKEN_PREFIX then .ok t else .err .invalidPrefix
    | none =>
      match recovery with
      | some (pfx, t) => if pfx == JWT_TOKEN_PREFIX then .ok t else .err .invalidPrefix
      | none => .err .missingCredential

/-- `get_invitation_token` (jwt.py 125-131): `invitation: str = Header(None)`
followed immediately by `invitation.split(" ")`.  With the header absent,
`invitation` is `None` and `.split` raises AttributeError — an unhandled
exception, not a structured rejection. -/
def get_invitation_token (invitation : Option (String × Presented)) :
    Outcome Presented :=
  match invitation with
  | none => .crash
  | some (pfx, t) => if pfx == JWT_TOKEN_PREFIX then .ok t else .err .invalidPrefix

/-- `get_current_user` (jwt.py 102-122): decode (any PyJWTError becomes the
403 "Could not validate credentials"), then user lookup by the claim
email. -/
def get_current_user (s : DBState) (t : Presented) (now : Int) :
    Outcome UserTokenWrapper :=
  match decodeJwt t now with
  | .crash => .crash
  | .err _ => .err .couldNotValidate
  | .ok payload =>
    match findUserByEmail s payload.email with
    | none => .err .userNotFound
    | some u => .ok { user := u, token := t }

/-- The invitation subjects (jwt.py 142-146). -/
def invitationSubjects : List TokenSubject :=
  [.groupInviteCoOwner, .groupInviteMember, .userInvite]

/-- `get_user_by_email(conn, token_data.user_email_invited)` with an
optional claim (jwt.py line 155): a `None` claim finds nothing. -/
def lookupInvited (s : DBState) (e : Option String) : Option UserDB :=
  match e with
  | none => none
  | some e => findUserByEmail s e

/-- `get_user_from_invitation` (jwt.py 134-161): decode, insist the subject
is an invitation subject (403 "This is not an invitation token" — raised
inside the try but not a PyJWTError, so it propagates), then resolve the
user by the *invited* email claim. -/
def get_user_from_invitation (s : DBState) (t : Presented) (now : Int) :
    Outcome UserTokenWrapper :=
  match decodeJwt t now with
  | .crash => .crash
  | .err _ => .err .couldNotValidate
  | .ok payload =>
    if !(invitationSubjects.contains payload.subject) then .err .notAnInvitation
    else
      match lookupInvited s payload.user_email_invited with
      | none => .err .userNotFound
      | some u => .ok { user := u, token := t }

/-! ### Group endpoints (group.py) -/

/-- `GroupInvite` request body (app/models/group.py, shape from its use in
group.py 120-174: group_id, email, role). -/
structure GroupInvite where
  group_id : String
  email : String
  role : GroupRole
deriving DecidableEq, Repr

/-- `GroupKick` request body (group.py 277-283: id, email). -/
structure GroupKick where
  id : String
  email : String
deriving DecidableEq, Repr

/-- Modelled from the spec: `process_invitation` (app/utils/group.py, not
under src/); per §4.4 it issues a GROUP_INVITE_* token bound to the target
email and the group id via `wrap_user_db_data_into_token` with the given
role-specific expiry, and schedules the invite email (fire-and-forget,
out of scope).  Returns the issued token and the state with it saved. -/
def process_invitation (s : DBState) (gi : GroupInvite) (user_invited : UserDB)
    (subject : TokenSubject) (expire_minutes : Int) (now : Int) :
    JwtPayload × DBState :=
  wrap_user_db_data_into_token s user_invited subject (some gi.group_id)
    (some gi.email) (some expire_minutes) now

/-- `invite` (group.py 113-183).  On success the handler answers
GenericResponse(RUNNING); the model additionally returns the issued token
(the one embedded in the emailed action link) for composition. -/
def invite (s : DBState) (gi : GroupInvite) (user_current : UserDB)
    (now : Int) : Outcome (JwtPayload × DBState) :=
  match getGroupById s gi.group_id with
  | .crash => .crash
  | .err e => .err e
  | .ok group_db =>
    if group_db.user_is_owner user_current.email
        || group_db.user_is_co_owner user_current.email then
      if gi.role == GroupRole.owner then
        .err .ownerRoleUnique
      else
        -- lines 131-140: looked-up user, or the mocked placeholder record
        let user_invited : UserDB :=
          match findUserByEmail s gi.email with
          | some u => u
          | none => { email := gi.email, username := "" }
        if group_db.user_in_group user_invited.email then
          .err .alreadyInGroup
        else if gi.role == GroupRole.coOwner then
          if group_db.user_is_co_owner user_current.email then
            .err .notAuthorized   -- "User is not allowed to invite another co-owner"
          else
            .ok (process_invitation s gi user_invited .groupInviteCoOwner
                  GROUP_INVITE_CO_OWNER_TOKEN_EXPIRE_MINUTES now)
        else
          -- here gi.role = MEMBER: OWNER was rejected above and CO_OWNER handled
          .ok (process_invitation s gi user_invited .groupInviteMember
                GROUP_INVITE_MEMBER_TOKEN_EXPIRE_MINUTES now)
    else
      .err .notAuthorized   -- "User is not allowed to invite"

/-- The role granted by `join` from the token subject (group.py 210-214). -/
def joinRole (td : TokenDB) : GroupRole :=
  if td.subject == TokenSubject.groupInviteCoOwner then .coOwner else .member

/-- The checks of `join` (group.py 192-208) up to the two writes: resolve
the invitation identity and the authenticated identity, require matching
emails, fetch the token record, require it unconsumed, fetch the group. -/
def joinChecks (s : DBState) (inv auth : Presented) (now : Int) :
    Outcome (String × TokenDB × UserDB) :=
  match get_user_from_invitation s inv now with
  | .crash => .crash
  | .err e => .err e
  | .ok user_invitation =>
    match get_current_user s auth now with
    | .crash => .crash
    | .err e => .err e
    | .ok user_current =>
      if user_current.user.email == user_invitation.user.email then
        match get_token_db s user_invitation.token with
        | .crash => .crash
        | .err e => .err e
        | .ok token_db =>
          if token_db.used_at.isSome then
            .err .tokenAlreadyUsed   -- "Invitation token already used"
          else
            match token_db.group_id with
            | none => .err .groupNotFound
            | some gid =>
              match getGroupById s gid with
              | .crash => .crash
              | .err e => .err e
              | .ok _ => .ok (gid, token_db, user_current.user)
      else
        .err .invitationMismatch   -- "This user was not invited"

/-- `join` (group.py 192-235): after the checks, two sequential awaits —
`update_group` (line 221) and then `update_token` (line 225) — with no
surrounding transaction (contrast `create`, line 96, which opens one). -/
def join (s : DBState) (inv auth : Presented) (now : Int) : Outcome DBState :=
  match joinChecks s inv auth now with
  | .crash => .crash
  | .err e => .err e
  | .ok (gid, token_db, u) =>
    let s₁ := updateGroupInState s gid (fun g => addAsRole g (joinRole token_db) u.email)
    let s₂ := update_token s₁ token_db.token now
    .ok s₂

/-- The observable store if execution stops between the `update_group`
await (group.py line 221) and the `update_token` await (line 225): the
membership write has been applied, the consumption write has not. -/
def joinAfterGroupWrite (s : DBState) (inv auth : Presented) (now : Int) :
    Outcome DBState :=
  match joinChecks s inv auth now with
  | .crash => .crash
  | .err e => .err e
  | .ok (gid, token_db, u) =>
    .ok (updateGroupInState s gid (fun g => addAsRole g (joinRole token_db) u.email))

/-- `kick` (group.py 272-313). -/
def kick (s : DBState) (gk : GroupKick) (user_current : UserDB) : Outcome DBState :=
  match getGroupById s gk.id with
  | .crash => .crash
  | .err e => .err e
  | .ok group_db =>
    if group_db.user_in_group user_current.email then
      let user_base_is_owner := group_db.user_is_owner user_current.email
      let user_base_is_co_owner := group_db.user_is_co_owner user_current.email
      if user_base_is_owner || user_base_is_co_owner then
        match get_user_by_email s gk.email with
        | .crash => .crash
        | .err e => .err e
        | .ok user_kick =>
          if group_db.user_in_group user_kick.email then
            if group_db.user_is_owner user_kick.email then
              .err .cannotKickOwner   -- "Owner of the group can't be kicked"
            else if group_db.user_is_co_owner user_kick.email && user_base_is_co_owner then
              .err .coOwnerCannotKickCoOwner
            else
              .ok (updateGroupInState s gk.id (fun g => removeFromGroup g user_kick.email))
          else
            .err .notInGroup   -- "User is not in the group"
      else
        .err .notAuthorized    -- "User is not allowed to kick other members"
    else
      .err .notAuthorized      -- "Current user is not part of the group"

/-! ### User endpoints (user.py) -/

/-- `activate` (user.py 83-102): the bound token must have subject ACTIVATE
and be unconsumed; then flip is_active and consume the token (two awaits,
user.py 90-95). -/
def activate (s : DBState) (auth : Presented) (now : Int) : Outcome DBState :=
  match get_current_user s auth now with
  | .crash => .crash
  | .err e => .err e
  | .ok user_current =>
    match get_token_db s user_current.token with
    | .crash => .crash
    | .err e => .err e
    | .ok token_db =>
      if token_db.subject == TokenSubject.activate then
        if token_db.used_at.isNone then
          .ok (update_token (update_user_active s user_current.user.email)
                token_db.token now)
        else
          .err .tokenAlreadyUsed  -- guard: used_at set (source detail reads "Token has expired")
      else
        .err .invalidActivation   -- "Invalid activation"

/-- `change_password` (user.py 148-168): the bound token must have subject
RECOVER and be unconsumed; then set the password and consume the token. -/
def change_password (s : DBState) (auth : Presented) (password : String)
    (now : Int) : Outcome DBState :=
  match get_current_user s auth now with
  | .crash => .crash
  | .err e => .err e
  | .ok user_current =>
    match get_token_db s user_current.token with
    | .crash => .crash
    | .err e => .err e
    | .ok token_db =>
      if token_db.subject == TokenSubject.recover then
        if token_db.used_at.isNone then
          .ok (update_token (update_user_password s user_current.user.email password)
                token_db.token now)
        else
          .err .tokenAlreadyUsed  -- guard: used_at set (source detail reads "Token has expired")
      else
        .err .invalidRecovery     -- "Invalid recovery"

/-- `invite_user` (user.py 193-228): the invited email must not belong to an
existing user; then issue a USER_INVITE token from the inviter's record
with the invited email as a claim.  Returns the issued token. -/
def invite_user (s : DBState) (email_invited : String) (user_current : UserDB)
    (now : Int) : Outcome (JwtPayload × DBState) :=
  match findUserByEmail s email_invited with
  | some _ => .err .userAlreadyExists   -- "This user already exist"
  | none =>
    .ok (wrap_user_db_data_into_token s user_current .userInvite none
          (some email_invited) (some USER_INVITE_TOKEN_EXPIRE_MINUTES) now)

/-- `join_via_invitation` (user.py 237-256): fetch the invitation token
record, require it unconsumed, require the authenticated email to equal the
invited-email claim, then consume the token. -/
def join_via_invitation (s : DBState) (inv auth : Presented) (now : Int) :
    Outcome DBState :=
  match get_user_from_invitation s inv now with
  | .crash => .crash
  | .err e => .err e
  | .ok user_invitation =>
    match get_current_user s auth now with
    | .crash => .crash
    | .err e => .err e
    | .ok user_current =>
      match get_token_db s user_invitation.token with
      | .crash => .crash
      | .err e => .err e
      | .ok token_db =>
        if token_db.used_at.isNone then
          if some user_current.user.email == token_db.user_email_invited then
            .ok (update_token s token_db.token now)
          else
            .err .invitationMismatch   -- "This user was not invited"
        else
          .err .tokenAlreadyUsed       -- "Invitation token already used"

/-! ### Predicates about token consumption (spec 4.3 state machine) -/

/-- No stored token moves back from consumed to issued between `s` and
`s’`: every record with used-at set still has it set. -/
def noUnconsume (s s' : DBState) : Prop :=
  ∀ (p : JwtPayload) (r : TokenDB), getTokenRec s p = some r →
    r.used_at.isSome = true →
    ∃ r' : TokenDB, getTokenRec s' p = some r' ∧ r'.used_at.isSome = true

/-- The presented credential's stored record carries used-at = the given
consumption time in `s'`. -/
def consumedTheToken (s' : DBState) (t : Presented) (now : Int) : Prop :=
  ∃ (p : JwtPayload) (r : TokenDB), t = .signed p ∧
    getTokenRec s' p = some r ∧ r.used_at = some now

/-! ### Concrete fixtures for witnesses and counterexamples -/

def uOwner : UserDB := { email := "o@x", username := "o", is_active := true }

def uBob : UserDB := { email := "b@x", username := "b", is_active := true }

def uMember : UserDB := { email := "m@x", username := "m", is_active := true }

def uCo : UserDB := { email := "w@x", username := "w", is_active := true }

def uCarol : UserDB := { email := "c@x", username := "c", is_active := false }

def uDave : UserDB := { email := "d@x", username := "d", is_active := true }

/-- A group with an owner, one co-owner and one member. -/
def gFull : GroupDB := { name := "G", owner := "o@x", co_owners := ["w@x"], members := ["m@x"] }

/-- A group with just its owner. -/
def gBase : GroupDB := { name := "G", owner := "o@x", co_owners := [], members := [] }

def sBase : DBState :=
  { users := [uOwner, uBob], groups := [("g1", gBase)], tokens := [] }

def giBob : GroupInvite := { group_id := "g1", email := "b@x", role := .member }

/-- The token `invite sBase giBob uOwner 0` issues. -/
def pInv : JwtPayload :=
  { email := "b@x", username := "b", group_id := some "g1",
    user_email_invited := some "b@x", exp := 30, subject := .groupInviteMember }

def recInv : TokenDB :=
  { email := "b@x", username := "b", group_id := some "g1",
    user_email_invited := some "b@x", subject := .groupInviteMember,
    expire_datetime := 30, token := pInv, created_at := 0, used_at := none }

/-- State after the invite: the invitation token is stored, unconsumed. -/
def sInv : DBState :=
  { users := [uOwner, uBob], groups := [("g1", gBase)], tokens := [recInv] }

/-- Bob's own authenticated credential. -/
def aBob : JwtPayload :=
  { email := "b@x", username := "b", group_id := none, user_email_invited := none,
    exp := 1000, subject := .activate }

def gJoined : GroupDB := { name := "G", owner := "o@x", co_owners := [], members := ["b@x"] }

/-- State after a completed join: membership granted and token consumed. -/
def sJoined : DBState :=
  { users := [uOwner, uBob], groups := [("g1", gJoined)],
    tokens := [{ recInv with used_at := some 5 }] }

/-- State exposed by a failure between the two join writes: membership
granted, token still unconsumed. -/
def sTorn : DBState :=
  { users := [uOwner, uBob], groups := [("g1", gJoined)], tokens := [recInv] }

/-- Activation fixtures. -/
def pAct : JwtPayload :=
  { email := "c@x", username := "c", group_id := none, user_email_invited := none,
    exp := 30, subject := .activate }

def recAct : TokenDB :=
  { email := "c@x", username := "c", group_id := none, user_email_invited := none,
    subject := .activate, expire_datetime := 30, token := pAct, created_at := 0,
    used_at := none }

def sAct : DBState := { users := [uCarol], groups := [], tokens := [recAct] }

def sActDone : DBState :=
  { users := [{ uCarol with is_active := true }], groups := [],
    tokens := [{ recAct with used_at := some 5 }] }

/-- Recovery fixtures. -/
def pRec : JwtPayload :=
  { email := "c@x", username := "c", group_id := none, user_email_invited := none,
    exp := 30, subject := .recover }

def recRec : TokenDB :=
  { email := "c@x", username := "c", group_id := none, user_email_invited := none,
    subject := .recover, expire_datetime := 30, token := pRec, created_at := 0,
    used_at := none }

def sRec : DBState := { users := [uCarol], groups := [], tokens := [recRec] }

def sRecDone : DBState :=
  { users := [{ uCarol with password := "npw" }], groups := [],
    tokens := [{ recRec with used_at := some 5 }] }

/-- User-invite fixtures: the owner invited Dave, who has since registered. -/
def pUJ : JwtPayload :=
  { email := "o@x", username := "o", group_id := none,
    user_email_invited := some "d@x", exp := 30, subject := .userInvite }

def recUJ : TokenDB :=
  { email := "o@x", username := "o", group_id := none,
    user_email_invited := some "d@x", subject := .userInvite,
    expire_datetime := 30, token := pUJ, created_at := 0, used_at := none }

def aDave : JwtPayload :=
  { email := "d@x", username := "d", group_id := none, user_email_invited := none,
    exp := 1000, subject := .activate }

def sUJ : DBState := { users := [uOwner, uDave], groups := [], tokens := [recUJ] }

def sUJDone : DBState :=
  { users := [uOwner, uDave], groups := [],
    tokens := [{ recUJ with used_at := some 5 }] }

/-- A populated group state for the invite/kick matrices. -/
def sFull : DBState :=
  { users := [uOwner, uCo, uMember, uBob], groups := [("g1", gFull)], tokens := [] }

/-! ### Store lemmas -/

/-- `find?` over a key-preserving map: the found element is the image of the
element found in the original list. -/
theorem find?_map_of_key {α β : Type} [BEq β] (l : List α) (f : α → α) (key : α → β)
    (hf : ∀ a, key (f a) = key a) (k : β) :
    (l.map f).find? (fun a => key a == k) = (l.find? (fun a => key a == k)).map f := by
  rw [List.find?_map]
  have hcomp : ((fun a => key a == k) ∘ f) = (fun a => key a == k) := by
    funext a
    simp [Function.comp, hf]
  rw [hcomp]

/-- `find?` skips a prefix in which it finds nothing. -/
theorem find?_append_of_none {α : Type} (l₁ l₂ : List α) (p : α → Bool)
    (h : l₁.find? p = none) : (l₁ ++ l₂).find? p = l₂.find? p := by
  rw [List.find?_append, h]
  rfl

theorem getTokenRec_update_token (s : DBState) (q p : JwtPayload) (t : Int) :
    getTokenRec (update_token s q t) p =
      (getTokenRec s p).map
        (fun r => if r.token == q then { r with used_at := some t } else r) := by
  unfold getTokenRec update_token
  exact find?_map_of_key s.tokens _ TokenDB.token
    (fun r => by by_cases h : (r.token == q) = true <;> simp [h]) p

theorem getTokenRec_updateGroup (s : DBState) (gid : String) (f : GroupDB → GroupDB)
    (p : JwtPayload) : getTokenRec (updateGroupInState s gid f) p = getTokenRec s p := rfl

theorem getTokenRec_update_user_active (s : DBState) (e : String) (p : JwtPayload) :
    getTokenRec (update_user_active s e) p = getTokenRec s p := rfl

theorem getTokenRec_update_user_password (s : DBState) (e pw : String) (p : JwtPayload) :
    getTokenRec (update_user_password s e pw) p = getTokenRec s p := rfl

theorem getTokenRec_save_token_of_none (s : DBState) (r : TokenDB) (p : JwtPayload)
    (h : getTokenRec s p = none) :
    getTokenRec (save_token s r) p = if r.token == p then some r else none := by
  unfold getTokenRec save_token at *
  rw [find?_append_of_none _ _ _ h, List.find?_singleton]

theorem findUserByEmail_update_token (s : DBState) (q : JwtPayload) (t : Int)
    (e : String) : findUserByEmail (update_token s q t) e = findUserByEmail s e := rfl

theorem findUserByEmail_updateGroup (s : DBState) (gid : String) (f : GroupDB → GroupDB)
    (e : String) : findUserByEmail (updateGroupInState s gid f) e = findUserByEmail s e := rfl

theorem findUserByEmail_save_token (s : DBState) (r : TokenDB) (e : String) :
    findUserByEmail (save_token s r) e = findUserByEmail s e := rfl

theorem findUserByEmail_update_user_active (s : DBState) (e e' : String) :
    findUserByEmail (update_user_active s e) e' =
      (findUserByEmail s e').map
        (fun u => if u.email == e then { u with is_active := true } else u) := by
  unfold findUserByEmail update_user_active
  exact find?_map_of_key s.users _ UserDB.email
    (fun u => by by_cases h : (u.email == e) = true <;> simp [h]) e'

theorem findUserByEmail_update_user_password (s : DBState) (e pw e' : String) :
    findUserByEmail (update_user_password s e pw) e' =
      (findUserByEmail s e').map
        (fun u => if u.email == e then { u with password := pw } else u) := by
  unfold findUserByEmail update_user_password
  exact find?_map_of_key s.users _ UserDB.email
    (fun u => by by_cases h : (u.email == e) = true <;> simp [h]) e'

theorem groups_find?_updateGroup (s : DBState) (gid : String) (f : GroupDB → GroupDB)
    (gid' : String) :
    (updateGroupInState s gid f).groups.find? (fun p => p.1 == gid') =
      (s.groups.find? (fun p => p.1 == gid')).map
        (fun p => if p.1 == gid then (p.1, f p.2) else p) := by
  unfold updateGroupInState
  exact find?_map_of_key s.groups _ Prod.fst
    (fun p => by by_cases h : (p.1 == gid) = true <;> simp [h]) gid'

theorem getGroupById_update_token (s : DBState) (q : JwtPayload) (t : Int)
    (gid : String) : getGroupById (update_token s q t) gid = getGroupById s gid := rfl

theorem getGroupById_save_token (s : DBState) (r : TokenDB) (gid : String) :
    getGroupById (save_token s r) gid = getGroupById s gid := rfl

/-- The user a `find?` by email returns matches the email. -/
theorem findUserByEmail_email {s : DBState} {e : String} {u : UserDB}
    (h : findUserByEmail s e = some u) : u.email = e := by
  have := List.find?_some h
  simpa using this

/-- The record a token-store lookup returns is keyed by the payload. -/
theorem getTokenRec_token {s : DBState} {p : JwtPayload} {r : TokenDB}
    (h : getTokenRec s p = some r) : r.token = p := by
  have := List.find?_some h
  simpa using this

/-! ### Inversion lemmas for the credential resolvers -/

theorem get_user_from_invitation_ok {s : DBState} {t : Presented} {now : Int}
    {w : UserTokenWrapper} (h : get_user_from_invitation s t now = .ok w) :
    ∃ p : JwtPayload, t = .signed p ∧ ¬ p.exp ≤ now ∧
      invitationSubjects.contains p.subject = true ∧
      ∃ e : String, p.user_email_invited = some e ∧
        findUserByEmail s e = some w.user ∧ w.token = t := by
  cases t with
  | garbage => simp [get_user_from_invitation, decodeJwt] at h
  | signed p =>
    refine ⟨p, rfl, ?_⟩
    unfold get_user_from_invitation decodeJwt at h
    by_cases hexp : p.exp ≤ now
    · simp [hexp] at h
    · simp only [hexp, if_false] at h
      cases hsub : invitationSubjects.contains p.subject with
      | false => rw [hsub] at h; simp at h
      | true =>
        rw [hsub] at h
        rw [if_neg (by decide : ¬((!true) = true))] at h
        cases hl : lookupInvited s p.user_email_invited with
        | none => rw [hl] at h; exact absurd h (by simp)
        | some u =>
          rw [hl] at h
          simp only [Outcome.ok.injEq] at h
          subst h
          rcases hpe : p.user_email_invited with _ | e
          · rw [hpe] at hl; exact absurd hl (by simp [lookupInvited])
          · rw [hpe] at hl
            simp only [lookupInvited] at hl
            exact ⟨hexp, rfl, e, rfl, hl, rfl⟩

theorem get_current_user_ok {s : DBState} {t : Presented} {now : Int}
    {w : UserTokenWrapper} (h : get_current_user s t now = .ok w) :
    ∃ p : JwtPayload, t = .signed p ∧ ¬ p.exp ≤ now ∧
      findUserByEmail s p.email = some w.user ∧ w.token = t := by
  cases t with
  | garbage => simp [get_current_user, decodeJwt] at h
  | signed p =>
    refine ⟨p, rfl, ?_⟩
    unfold get_current_user decodeJwt at h
    by_cases hexp : p.exp ≤ now
    · simp [hexp] at h
    · simp only [hexp, if_false] at h
      cases hu : findUserByEmail s p.email with
      | none => rw [hu] at h; exact absurd h (by simp)
      | some u =>
        rw [hu] at h
        simp only [Outcome.ok.injEq] at h
        subst h
        exact ⟨hexp, rfl, rfl⟩

/-- The resolvers only read the user directory: equal `users` fields give
equal results. -/
theorem get_user_from_invitation_congr {s₁ s₂ : DBState} (t : Presented) (now : Int)
    (h : s₁.users = s₂.users) :
    get_user_from_invitation s₁ t now = get_user_from_invitation s₂ t now := by
  unfold get_user_from_invitation lookupInvited findUserByEmail
  rw [h]

theorem get_current_user_congr {s₁ s₂ : DBState} (t : Presented) (now : Int)
    (h : s₁.users = s₂.users) :
    get_current_user s₁ t now = get_current_user s₂ t now := by
  unfold get_current_user findUserByEmail
  rw [h]

/-! ### Inversion lemmas for the consuming workflows -/

theorem get_token_db_ok {s : DBState} {t : Presented} {td : TokenDB}
    (h : get_token_db s t = .ok td) :
    ∃ p : JwtPayload, t = .signed p ∧ getTokenRec s p = some td ∧ td.token = p := by
  cases t with
  | garbage => simp [get_token_db] at h
  | signed p =>
    simp only [get_token_db] at h
    cases hr : getTokenRec s p with
    | none => rw [hr] at h; exact absurd h (by simp)
    | some r =>
      rw [hr] at h
      simp only [Outcome.ok.injEq] at h
      subst h
      exact ⟨p, rfl, hr, getTokenRec_token hr⟩

theorem joinChecks_ok {s : DBState} {inv auth : Presented} {now : Int}
    {gid : String} {td : TokenDB} {u : UserDB}
    (h : joinChecks s inv auth now = .ok (gid, td, u)) :
    ∃ ui uc : UserTokenWrapper,
      get_user_from_invitation s inv now = .ok ui
      ∧ get_current_user s auth now = .ok uc
      ∧ (uc.user.email == ui.user.email) = true
      ∧ ui.token = inv
      ∧ get_token_db s inv = .ok td
      ∧ td.used_at = none
      ∧ td.group_id = some gid
      ∧ u = uc.user := by
  unfold joinChecks at h
  cases hui : get_user_from_invitation s inv now with
  | crash => rw [hui] at h; simp at h
  | err e => rw [hui] at h; simp at h
  | ok ui =>
    rw [hui] at h
    simp only at h
    have hti : ui.token = inv := by
      obtain ⟨p, hp, -, -, -, -, -, ht⟩ := get_user_from_invitation_ok hui
      rw [ht, hp]
    cases huc : get_current_user s auth now with
    | crash => rw [huc] at h; simp at h
    | err e => rw [huc] at h; simp at h
    | ok uc =>
      rw [huc] at h
      simp only at h
      by_cases hem : (uc.user.email == ui.user.email) = true
      · rw [hem, if_pos rfl] at h
        cases htd : get_token_db s ui.token with
        | crash => rw [htd] at h; simp at h
        | err e => rw [htd] at h; simp at h
        | ok td' =>
          rw [htd] at h
          simp only at h
          by_cases hus : td'.used_at.isSome = true
          · simp [hus] at h
          · rw [Bool.not_eq_true] at hus
            rw [hus, if_neg (by decide : ¬(false = true))] at h
            cases hgi : td'.group_id with
            | none => rw [hgi] at h; simp at h
            | some gid' =>
              rw [hgi] at h
              simp only at h
              cases hgr : getGroupById s gid' with
              | crash => rw [hgr] at h; simp at h
              | err e => rw [hgr] at h; simp at h
              | ok g =>
                rw [hgr] at h
                simp only [Outcome.ok.injEq, Prod.mk.injEq] at h
                obtain ⟨h1, h2, h3⟩ := h
                have hnone : td'.used_at = none := by
                  cases hu : td'.used_at with
                  | none => rfl
                  | some t => rw [hu] at hus; simp at hus
                subst h1; subst h2; subst h3
                exact ⟨ui, uc, rfl, rfl, hem, hti, by rw [← hti]; exact htd,
                  hnone, hgi, rfl⟩
      · rw [Bool.not_eq_true] at hem
        rw [hem, if_neg (by decide : ¬(false = true))] at h
        simp at h

theorem activate_ok {s s' : DBState} {auth : Presented} {now : Int}
    (h : activate s auth now = .ok s') :
    ∃ (uc : UserTokenWrapper) (td : TokenDB),
      get_current_user s auth now = .ok uc
      ∧ get_token_db s auth = .ok td
      ∧ td.subject = .activate
      ∧ td.used_at = none
      ∧ s' = update_token (update_user_active s uc.user.email) td.token now := by
  unfold activate at h
  cases huc : get_current_user s auth now with
  | crash => rw [huc] at h; simp at h
  | err e => rw [huc] at h; simp at h
  | ok uc =>
    rw [huc] at h
    simp only at h
    have hta : uc.token = auth := by
      obtain ⟨p, hp, -, -, ht⟩ := get_current_user_ok huc
      rw [ht, hp]
    cases htd : get_token_db s uc.token with
    | crash => rw [htd] at h; simp at h
    | err e => rw [htd] at h; simp at h
    | ok td =>
      rw [htd] at h
      simp only at h
      by_cases hsub : (td.subject == TokenSubject.activate) = true
      · rw [hsub, if_pos rfl] at h
        by_cases hus : td.used_at.isNone = true
        · rw [hus, if_pos rfl] at h
          simp only [Outcome.ok.injEq] at h
          refine ⟨uc, td, rfl, by rw [← hta]; exact htd, beq_iff_eq.mp hsub,
            Option.isNone_iff_eq_none.mp hus, h.symm⟩
        · rw [Bool.not_eq_true] at hus
          rw [hus, if_neg (by decide : ¬(false = true))] at h
          simp at h
      · rw [Bool.not_eq_true] at hsub
        rw [hsub, if_neg (by decide : ¬(false = true))] at h
        simp at h

theorem change_password_ok {s s' : DBState} {auth : Presented} {pw : String}
    {now : Int} (h : change_password s auth pw now = .ok s') :
    ∃ (uc : UserTokenWrapper) (td : TokenDB),
      get_current_user s auth now = .ok uc
      ∧ get_token_db s auth = .ok td
      ∧ td.subject = .recover
      ∧ td.used_at = none
      ∧ s' = update_token (update_user_password s uc.user.email pw) td.token now := by
  unfold change_password at h
  cases huc : get_current_user s auth now with
  | crash => rw [huc] at h; simp at h
  | err e => rw [huc] at h; simp at h
  | ok uc =>
    rw [huc] at h
    simp only at h
    have hta : uc.token = auth := by
      obtain ⟨p, hp, -, -, ht⟩ := get_current_user_ok huc
      rw [ht, hp]
    cases htd : get_token_db s uc.token with
    | crash => rw [htd] at h; simp at h
    | err e => rw [htd] at h; simp at h
    | ok td =>
      rw [htd] at h
      simp only at h
      by_cases hsub : (td.subject == TokenSubject.recover) = true
      · rw [hsub, if_pos rfl] at h
        by_cases hus : td.used_at.isNone = true
        · rw [hus, if_pos rfl] at h
          simp only [Outcome.ok.injEq] at h
          refine ⟨uc, td, rfl, by rw [← hta]; exact htd, beq_iff_eq.mp hsub,
            Option.isNone_iff_eq_none.mp hus, h.symm⟩
        · rw [Bool.not_eq_true] at hus
          rw [hus, if_neg (by decide : ¬(false = true))] at h
          simp at h
      · rw [Bool.not_eq_true] at hsub
        rw [hsub, if_neg (by decide : ¬(false = true))] at h
        simp at h

theorem join_via_invitation_ok {s s' : DBState} {inv auth : Presented} {now : Int}
    (h : join_via_invitation s inv auth now = .ok s') :
    ∃ (ui uc : UserTokenWrapper) (td : TokenDB),
      get_user_from_invitation s inv now = .ok ui
      ∧ get_current_user s auth now = .ok uc
      ∧ get_token_db s inv = .ok td
      ∧ td.used_at = none
      ∧ (some uc.user.email == td.user_email_invited) = true
      ∧ s' = update_token s td.token now := by
  unfold join_via_invitation at h
  cases hui : get_user_from_invitation s inv now with
  | crash => rw [hui] at h; simp at h
  | err e => rw [hui] at h; simp at h
  | ok ui =>
    rw [hui] at h
    simp only at h
    have hti : ui.token = inv := by
      obtain ⟨p, hp, -, -, -, -, -, ht⟩ := get_user_from_invitation_ok hui
      rw [ht, hp]
    cases huc : get_current_user s auth now with
    | crash => rw [huc] at h; simp at h
    | err e => rw [huc] at h; simp at h
    | ok uc =>
      rw [huc] at h
      simp only at h
      cases htd : get_token_db s ui.token with
      | crash => rw [htd] at h; simp at h
      | err e => rw [htd] at h; simp at h
      | ok td =>
        rw [htd] at h
        simp only at h
        by_cases hus : td.used_at.isNone = true
        · rw [hus, if_pos rfl] at h
          by_cases hem : (some uc.user.email == td.user_email_invited) = true
          · rw [hem, if_pos rfl] at h
            simp only [Outcome.ok.injEq] at h
            exact ⟨ui, uc, td, rfl, rfl, by rw [← hti]; exact htd,
              Option.isNone_iff_eq_none.mp hus, hem, h.symm⟩
          · rw [Bool.not_eq_true] at hem
            rw [hem, if_neg (by decide : ¬(false = true))] at h
            simp at h
        · rw [Bool.not_eq_true] at hus
          rw [hus, if_neg (by decide : ¬(false = true))] at h
          simp at h

/-! ### Evaluation lemmas -/

theorem get_user_from_invitation_eval {s : DBState} {q : JwtPayload} {now : Int}
    {u : UserDB} {e : String} (hexp : ¬ q.exp ≤ now)
    (hsub : invitationSubjects.contains q.subject = true)
    (hinv : q.user_email_invited = some e) (hu : findUserByEmail s e = some u) :
    get_user_from_invitation s (.signed q) now = .ok { user := u, token := .signed q } := by
  simp [get_user_from_invitation, decodeJwt, hexp, hinv, lookupInvited, hu]
  simpa using hsub

theorem get_current_user_eval {s : DBState} {q : JwtPayload} {now : Int} {u : UserDB}
    (hexp : ¬ q.exp ≤ now) (hu : findUserByEmail s q.email = some u) :
    get_current_user s (.signed q) now = .ok { user := u, token := .signed q } := by
  simp [get_current_user, decodeJwt, hexp, hu]

theorem get_token_db_eval {s : DBState} {q : JwtPayload} {r : TokenDB}
    (hr : getTokenRec s q = some r) : get_token_db s (.signed q) = .ok r := by
  simp [get_token_db, hr]

theorem joinChecks_already_used {s : DBState} {inv auth : Presented} {now : Int}
    {ui uc : UserTokenWrapper} {td : TokenDB}
    (hui : get_user_from_invitation s inv now = .ok ui)
    (huc : get_current_user s auth now = .ok uc)
    (hem : (uc.user.email == ui.user.email) = true)
    (htd : get_token_db s ui.token = .ok td)
    (hus : td.used_at.isSome = true) :
    joinChecks s inv auth now = .err .tokenAlreadyUsed := by
  unfold joinChecks
  rw [hui]
  simp only
  rw [huc]
  simp only
  rw [hem, if_pos rfl, htd]
  simp only
  rw [hus, if_pos rfl]

theorem join_err_of_checks {s : DBState} {inv auth : Presented} {now : Int} {e : Err}
    (hc : joinChecks s inv auth now = .err e) : join s inv auth now = .err e := by
  unfold join
  rw [hc]

theorem activate_already_used {s : DBState} {auth : Presented} {now : Int}
    {uc : UserTokenWrapper} {td : TokenDB}
    (huc : get_current_user s auth now = .ok uc)
    (htd : get_token_db s uc.token = .ok td)
    (hsub : td.subject = .activate)
    (hus : td.used_at.isNone = false) :
    activate s auth now = .err .tokenAlreadyUsed := by
  unfold activate
  rw [huc]
  simp only
  rw [htd]
  simp only
  rw [show (td.subject == TokenSubject.activate) = true by simp [hsub], if_pos rfl]
  rw [hus, if_neg (by decide : ¬(false = true))]

theorem change_password_already_used {s : DBState} {auth : Presented} {pw : String}
    {now : Int} {uc : UserTokenWrapper} {td : TokenDB}
    (huc : get_current_user s auth now = .ok uc)
    (htd : get_token_db s uc.token = .ok td)
    (hsub : td.subject = .recover)
    (hus : td.used_at.isNone = false) :
    change_password s auth pw now = .err .tokenAlreadyUsed := by
  unfold change_password
  rw [huc]
  simp only
  rw [htd]
  simp only
  rw [show (td.subject == TokenSubject.recover) = true by simp [hsub], if_pos rfl]
  rw [hus, if_neg (by decide : ¬(false = true))]

theorem join_via_invitation_already_used {s : DBState} {inv auth : Presented}
    {now : Int} {ui uc : UserTokenWrapper} {td : TokenDB}
    (hui : get_user_from_invitation s inv now = .ok ui)
    (huc : get_current_user s auth now = .ok uc)
    (htd : get_token_db s ui.token = .ok td)
    (hus : td.used_at.isNone = false) :
    join_via_invitation s inv auth now = .err .tokenAlreadyUsed := by
  unfold join_via_invitation
  rw [hui]
  simp only
  rw [huc]
  simp only
  rw [htd]
  simp only
  rw [hus, if_neg (by decide : ¬(false = true))]

/-- After consuming `q`, the stored record for `q` carries the consumption
time. -/
theorem getTokenRec_after_consume {s₀ : DBState} {q : JwtPayload} {td : TokenDB}
    {t : Int} (h : getTokenRec s₀ q = some td) :
    getTokenRec (update_token s₀ q t) q = some { td with used_at := some t } := by
  have hq : (td.token == q) = true := by
    rw [getTokenRec_token h]
    exact beq_self_eq_true q
  rw [getTokenRec_update_token, h]
  simp only [Option.map_some']
  rw [if_pos hq]

/-- Consuming a token never unconsumes any other: `update_token` only sets
used-at. -/
theorem noUnconsume_update_token (s₀ s : DBState) (q : JwtPayload) (t : Int)
    (htok : s₀.tokens = s.tokens) :
    noUnconsume s (update_token s₀ q t) := by
  intro p r hr hsome
  have h0 : getTokenRec s₀ p = getTokenRec s p := by
    unfold getTokenRec
    rw [htok]
  rw [getTokenRec_update_token, h0, hr, Option.map_some']
  refine ⟨_, rfl, ?_⟩
  by_cases hq : (r.token == q) = true
  · rw [if_pos hq]
    rfl
  · rw [if_neg hq]
    exact hsome

/-- C2: for every issued token, each consuming workflow (group join,
activation, password change, user-invite acceptance) moves it from issued to
consumed exactly once: a successful redemption records used-at on the
presented token, re-running the same workflow on the resulting state (with
the credentials still unexpired) fails with TokenAlreadyUsed and returns no
state change, and no workflow ever clears a used-at already set (no
transition back to issued). -/
theorem C2_token_consumed_exactly_once
    (s s' : DBState) (inv auth : Presented) (pw pw' : String) (now now₂ : Int)
    (hv : ∀ q : JwtPayload, inv = .signed q ∨ auth = .signed q → ¬ q.exp ≤ now₂) :
    (join s inv auth now = .ok s' →
       consumedTheToken s' inv now
       ∧ join s' inv auth now₂ = .err .tokenAlreadyUsed
       ∧ noUnconsume s s')
    ∧ (activate s auth now = .ok s' →
       consumedTheToken s' auth now
       ∧ activate s' auth now₂ = .err .tokenAlreadyUsed
       ∧ noUnconsume s s')
    ∧ (change_password s auth pw now = .ok s' →
       consumedTheToken s' auth now
       ∧ change_password s' auth pw' now₂ = .err .tokenAlreadyUsed
       ∧ noUnconsume s s')
    ∧ (join_via_invitation s inv auth now = .ok s' →
       consumedTheToken s' inv now
       ∧ join_via_invitation s' inv auth now₂ = .err .tokenAlreadyUsed
       ∧ noUnconsume s s') := by
  refine ⟨?_, ?_, ?_, ?_⟩
  -- group join
  · intro h
    unfold join at h
    cases hc : joinChecks s inv auth now with
    | crash => rw [hc] at h; simp at h
    | err e => rw [hc] at h; simp at h
    | ok trip =>
      obtain ⟨gid, td, u⟩ := trip
      rw [hc] at h
      simp only [Outcome.ok.injEq] at h
      obtain ⟨ui, uc, hui, huc, hem, hti, htd, husn, hgi, huu⟩ := joinChecks_ok hc
      obtain ⟨q, hq, hexp, hsubj, e, hinve, hfind, htok⟩ :=
        get_user_from_invitation_ok hui
      obtain ⟨q2, hq2, hexp2, hfind2, htok2⟩ := get_current_user_ok huc
      obtain ⟨qd, hqd, hrec, hkey⟩ := get_token_db_ok htd
      have hqq : q = qd := by
        rw [hq] at hqd
        exact Presented.signed.inj hqd
      subst hqq
      subst h
      rw [hkey]
      have hrec1 : getTokenRec
          (updateGroupInState s gid fun g => addAsRole g (joinRole td) u.email) q
          = some td := hrec
      have hrecS := getTokenRec_after_consume (t := now) hrec1
      refine ⟨⟨q, { td with used_at := some now }, hq, hrecS, rfl⟩, ?_, ?_⟩
      · -- second join fails
        have hui' : get_user_from_invitation
            (update_token (updateGroupInState s gid fun g =>
              addAsRole g (joinRole td) u.email) q now) inv now₂
            = .ok { user := ui.user, token := .signed q } :=
          hq ▸ get_user_from_invitation_eval (hv q (Or.inl hq)) hsubj hinve hfind
        have huc' : get_current_user
            (update_token (updateGroupInState s gid fun g =>
              addAsRole g (joinRole td) u.email) q now) auth now₂
            = .ok { user := uc.user, token := .signed q2 } :=
          hq2 ▸ get_current_user_eval (hv q2 (Or.inr hq2)) hfind2
        exact join_err_of_checks
          (joinChecks_already_used hui' huc' hem (get_token_db_eval hrecS) rfl)
      · exact noUnconsume_update_token _ s q now rfl
  -- activation
  · intro h
    obtain ⟨uc, td, huc, htd, hsubj, husn, hs'⟩ := activate_ok h
    subst hs'
    obtain ⟨q2, hq2, hexp2, hfind2, htok2⟩ := get_current_user_ok huc
    obtain ⟨qd, hqd, hrec, hkey⟩ := get_token_db_ok htd
    have hqq : q2 = qd := by
      rw [hq2] at hqd
      exact Presented.signed.inj hqd
    subst hqq
    rw [hkey]
    have hrec1 : getTokenRec (update_user_active s uc.user.email) q2 = some td := hrec
    have hrecS := getTokenRec_after_consume (t := now) hrec1
    refine ⟨⟨q2, { td with used_at := some now }, hq2, hrecS, rfl⟩, ?_, ?_⟩
    · have hfind' : findUserByEmail
          (update_token (update_user_active s uc.user.email) q2 now) q2.email
          = some (if uc.user.email == uc.user.email then
              { uc.user with is_active := true } else uc.user) := by
        show findUserByEmail (update_user_active s uc.user.email) q2.email = _
        rw [findUserByEmail_update_user_active, hfind2, Option.map_some']
      have huc' := get_current_user_eval (hv q2 (Or.inr hq2)) hfind'
      rw [hq2]
      exact activate_already_used huc' (get_token_db_eval hrecS) hsubj rfl
    · exact noUnconsume_update_token _ s q2 now rfl
  -- password change
  · intro h
    obtain ⟨uc, td, huc, htd, hsubj, husn, hs'⟩ := change_password_ok h
    subst hs'
    obtain ⟨q2, hq2, hexp2, hfind2, htok2⟩ := get_current_user_ok huc
    obtain ⟨qd, hqd, hrec, hkey⟩ := get_token_db_ok htd
    have hqq : q2 = qd := by
      rw [hq2] at hqd
      exact Presented.signed.inj hqd
    subst hqq
    rw [hkey]
    have hrec1 : getTokenRec (update_user_password s uc.user.email pw) q2 = some td :=
      hrec
    have hrecS := getTokenRec_after_consume (t := now) hrec1
    refine ⟨⟨q2, { td with used_at := some now }, hq2, hrecS, rfl⟩, ?_, ?_⟩
    · have hfind' : findUserByEmail
          (update_token (update_user_password s uc.user.email pw) q2 now) q2.email
          = some (if uc.user.email == uc.user.email then
              { uc.user with password := pw } else uc.user) := by
        show findUserByEmail (update_user_password s uc.user.email pw) q2.email = _
        rw [findUserByEmail_update_user_password, hfind2, Option.map_some']
      have huc' := get_current_user_eval (hv q2 (Or.inr hq2)) hfind'
      rw [hq2]
      exact change_password_already_used huc' (get_token_db_eval hrecS) hsubj rfl
    · exact noUnconsume_update_token _ s q2 now rfl
  -- user-invite acceptance
  · intro h
    obtain ⟨ui, uc, td, hui, huc, htd, husn, hem, hs'⟩ := join_via_invitation_ok h
    subst hs'
    obtain ⟨q, hq, hexp, hsubj, e, hinve, hfind, htok⟩ :=
      get_user_from_invitation_ok hui
    obtain ⟨q2, hq2, hexp2, hfind2, htok2⟩ := get_current_user_ok huc
    obtain ⟨qd, hqd, hrec, hkey⟩ := get_token_db_ok htd
    have hqq : q = qd := by
      rw [hq] at hqd
      exact Presented.signed.inj hqd
    subst hqq
    rw [hkey]
    have hrecS := getTokenRec_after_consume (t := now) hrec
    refine ⟨⟨q, { td with used_at := some now }, hq, hrecS, rfl⟩, ?_, ?_⟩
    · have hui' : get_user_from_invitation (update_token s q now) inv now₂
          = .ok { user := ui.user, token := .signed q } :=
        hq ▸ get_user_from_invitation_eval (hv q (Or.inl hq)) hsubj hinve hfind
      have huc' : get_current_user (update_token s q now) auth now₂
          = .ok { user := uc.user, token := .signed q2 } :=
        hq2 ▸ get_current_user_eval (hv q2 (Or.inr hq2)) hfind2
      exact join_via_invitation_already_used hui' huc' (get_token_db_eval hrecS) rfl
    · exact noUnconsume_update_token s s q now rfl

/-- Witness for C2: concrete second redemptions of already-consumed tokens
in each of the four workflows. -/
theorem C2_token_consumed_exactly_once_witness :
    join sJoined (.signed pInv) (.signed aBob) 5 = .err .tokenAlreadyUsed
    ∧ activate sActDone (.signed pAct) 5 = .err .tokenAlreadyUsed
    ∧ change_password sRecDone (.signed pRec) "x" 5 = .err .tokenAlreadyUsed
    ∧ join_via_invitation sUJDone (.signed pUJ) (.signed aDave) 5
        = .err .tokenAlreadyUsed := by
  have hv1 : ∀ q : JwtPayload,
      Presented.signed pInv = .signed q ∨ Presented.signed aBob = .signed q →
      ¬ q.exp ≤ (5 : Int) := by
    intro q hq
    rcases hq with h | h
    · cases Presented.signed.inj h
      decide
    · cases Presented.signed.inj h
      decide
  have hv2 : ∀ q : JwtPayload,
      Presented.signed pAct = .signed q ∨ Presented.signed pAct = .signed q →
      ¬ q.exp ≤ (5 : Int) := by
    intro q hq
    rcases hq with h | h <;> cases Presented.signed.inj h <;> decide
  have hv3 : ∀ q : JwtPayload,
      Presented.signed pRec = .signed q ∨ Presented.signed pRec = .signed q →
      ¬ q.exp ≤ (5 : Int) := by
    intro q hq
    rcases hq with h | h <;> cases Presented.signed.inj h <;> decide
  have hv4 : ∀ q : JwtPayload,
      Presented.signed pUJ = .signed q ∨ Presented.signed aDave = .signed q →
      ¬ q.exp ≤ (5 : Int) := by
    intro q hq
    rcases hq with h | h <;> cases Presented.signed.inj h <;> decide
  refine ⟨?_, ?_, ?_, ?_⟩
  · exact ((C2_token_consumed_exactly_once sInv sJoined (.signed pInv) (.signed aBob)
      "" "" 5 5 hv1).1 (by decide)).2.1
  · exact ((C2_token_consumed_exactly_once sAct sActDone (.signed pAct) (.signed pAct)
      "" "" 5 5 hv2).2.1 (by decide)).2.1
  · exact ((C2_token_consumed_exactly_once sRec sRecDone (.signed pRec) (.signed pRec)
      "npw" "x" 5 5 hv3).2.2.1 (by decide)).2.1
  · exact ((C2_token_consumed_exactly_once sUJ sUJDone (.signed pUJ) (.signed aDave)
      "" "" 5 5 hv4).2.2.2 (by decide)).2.1

/-- C1: the spec requires the group-membership write and the token
consumption of a join to form one atomic unit.  The code (group.py 221-227)
runs them as two separate awaits with no transaction: the execution that
stops after `update_group` and before `update_token` is observable as
`joinAfterGroupWrite` and leaves Bob a member of the group while the
invitation token is still unconsumed — exactly the state the claim rules
out.  The completed `join` on the same input does consume the token. -/
theorem C1_join_not_atomic :
    joinAfterGroupWrite sInv (.signed pInv) (.signed aBob) 5 = .ok sTorn
    ∧ getGroupById sTorn "g1" = .ok gJoined
    ∧ gJoined.user_in_group "b@x" = true
    ∧ (getTokenRec sTorn pInv).map TokenDB.used_at = some none
    ∧ join sInv (.signed pInv) (.signed aBob) 5 = .ok sJoined
    ∧ (getTokenRec sJoined pInv).map TokenDB.used_at = some (some 5) := by
  decide

/-- C8: a request presenting no token on the authorization/activation/
recovery channels gets the structured MissingCredential rejection
("Invalid header", 403), but an absent invitation header makes
`get_invitation_token` call `None.split(" ")` — an unhandled
AttributeError, i.e. a crash, not a structured rejection. -/
theorem C8_missing_invitation_header_crashes :
    get_token none none none = Outcome.err Err.missingCredential
    ∧ get_invitation_token none = Outcome.crash := by
  decide

/-- C6 counterexample: a token issued with ttl = 0 does NOT fail
verification immediately — `timedelta(0)` is falsy, so `create_token` falls
back to the 10-minute default expiry and verification at issuance time
succeeds, returning the payload. -/
theorem C6_counterexample_zero_ttl_verifies :
    decodeJwt
      (.signed (create_token { email := "a@x", username := "a" } (some 0) .activate 0).1) 0
      = Outcome.ok
          { email := "a@x", username := "a", group_id := none,
            user_email_invited := none, exp := 10, subject := .activate } := by
  decide

/-- C6 (amended): a token issued with a strictly negative ttl fails
verification with Expired at any time at or after issuance; a ttl of zero
is falsy in `if expires_delta:` and is treated as unspecified, so the token
receives the default now+10 expiry and verifies successfully before it. -/
theorem C6_amended_nonpositive_ttl
    (data : Claims) (subject : TokenSubject) (ttl now t : Int) :
    (ttl < 0 → now ≤ t →
      decodeJwt (.signed (create_token data (some ttl) subject now).1) t
        = .err .expired)
    ∧ (create_token data (some 0) subject now).1.exp = now + 10
    ∧ (t < now + 10 →
      decodeJwt (.signed (create_token data (some 0) subject now).1) t
        = .ok (create_token data (some 0) subject now).1) := by
  refine ⟨?_, ?_, ?_⟩
  · intro hneg hle
    have hnz : (ttl != 0) = true := by
      simp
      omega
    simp only [create_token, timedeltaTruthy, hnz, if_true, decodeJwt, Option.getD]
    rw [if_pos (by omega)]
  · simp [create_token, timedeltaTruthy]
  · intro hlt
    simp only [create_token, timedeltaTruthy, decodeJwt]
    rw [if_neg (by decide : ¬(((0 : Int) != 0) = true))]
    rw [if_neg (by omega : ¬ now + 10 ≤ t)]

/-- Witness for C6 (amended): ttl = -5 at issuance time 0 is already
Expired; ttl = 0 gets expiry 0 + 10. -/
theorem C6_amended_nonpositive_ttl_witness :
    decodeJwt
      (.signed (create_token { email := "a@x", username := "a" } (some (-5)) .activate 0).1) 0
      = .err .expired
    ∧ (create_token { email := "a@x", username := "a" } (some 0) .activate 0).1.exp
        = 0 + 10 :=
  ⟨(C6_amended_nonpositive_ttl { email := "a@x", username := "a" } .activate (-5) 0 0).1
      (by decide) (by decide),
   (C6_amended_nonpositive_ttl { email := "a@x", username := "a" } .activate (-5) 0 0).2.1⟩

/-- C9: issue-then-verify round trip — for every claim set, subject and
positive ttl, verifying the issued token at any time before now + ttl
succeeds and returns exactly the claims and the subject. -/
theorem C9_issue_then_verify_roundtrip
    (data : Claims) (subject : TokenSubject) (ttl now t : Int)
    (hpos : 0 < ttl) (ht : t < now + ttl) :
    decodeJwt (.signed (create_token data (some ttl) subject now).1) t
      = .ok (create_token data (some ttl) subject now).1
    ∧ (create_token data (some ttl) subject now).1.claimsOf = data
    ∧ (create_token data (some ttl) subject now).1.subject = subject := by
  have hnz : (ttl != 0) = true := by
    simp
    omega
  refine ⟨?_, rfl, rfl⟩
  simp only [create_token, timedeltaTruthy, hnz, if_true, decodeJwt, Option.getD]
  rw [if_neg (by omega : ¬ now + ttl ≤ t)]

/-- Witness for C9 at a concrete claim set, subject recover, ttl 5,
verified at time 3. -/
theorem C9_issue_then_verify_roundtrip_witness :
    decodeJwt
      (.signed (create_token { email := "a@x", username := "a" } (some 5) .recover 0).1) 3
      = .ok (create_token { email := "a@x", username := "a" } (some 5) .recover 0).1
    ∧ (create_token { email := "a@x", username := "a" } (some 5) .recover 0).1.claimsOf
        = { email := "a@x", username := "a" }
    ∧ (create_token { email := "a@x", username := "a" } (some 5) .recover 0).1.subject
        = .recover :=
  C9_issue_then_verify_roundtrip { email := "a@x", username := "a" } .recover 5 0 3
    (by decide) (by decide)

/-- C7: resolving a presented (well-signed, unexpired) token as an
invitation fails with NotAnInvitation unless its subject is one of
GROUP_INVITE_CO_OWNER, GROUP_INVITE_MEMBER, USER_INVITE; on an invitation
subject, the bound identity is looked up by the token's invited-email claim
(not the inviter's email claim) — absence of that user gives UserNotFound,
and on success the resolved user's email equals the invited-email claim. -/
theorem C7_resolve_invitation (s : DBState) (q : JwtPayload) (now : Int)
    (hexp : ¬ q.exp ≤ now) :
    (invitationSubjects.contains q.subject = false →
      get_user_from_invitation s (.signed q) now = .err .notAnInvitation)
    ∧ (invitationSubjects.contains q.subject = true →
        (lookupInvited s q.user_email_invited = none →
          get_user_from_invitation s (.signed q) now = .err .userNotFound)
        ∧ ∀ u : UserDB, lookupInvited s q.user_email_invited = some u →
            get_user_from_invitation s (.signed q) now
              = .ok { user := u, token := .signed q }
            ∧ some u.email = q.user_email_invited) := by
  refine ⟨?_, ?_⟩
  · intro hsubF
    have : ¬ q.subject ∈ invitationSubjects := by
      simpa using hsubF
    simp [get_user_from_invitation, decodeJwt, hexp, this]
  · intro hsubT
    have hmem : q.subject ∈ invitationSubjects := by
      simpa using hsubT
    refine ⟨?_, ?_⟩
    · intro hnone
      simp [get_user_from_invitation, decodeJwt, hexp, hmem, hnone]
    · intro u hu
      rcases hpe : q.user_email_invited with _ | e
      · rw [hpe] at hu
        exact absurd hu (by simp [lookupInvited])
      · rw [hpe] at hu
        simp only [lookupInvited] at hu
        refine ⟨get_user_from_invitation_eval hexp hsubT hpe hu, ?_⟩
        rw [findUserByEmail_email hu]

/-- Witness for C7: the user-invite token resolves Dave (the invited email,
not the inviter "o@x"); a non-invitation subject is rejected; an invited
email with no registered user gives UserNotFound. -/
theorem C7_resolve_invitation_witness :
    get_user_from_invitation sUJ (.signed pUJ) 5
        = .ok { user := uDave, token := .signed pUJ }
    ∧ some uDave.email = pUJ.user_email_invited
    ∧ get_user_from_invitation sAct (.signed pAct) 5 = .err .notAnInvitation
    ∧ get_user_from_invitation sBase (.signed pUJ) 5 = .err .userNotFound := by
  have h1 := ((C7_resolve_invitation sUJ pUJ 5 (by decide)).2 (by decide)).2 uDave
    (by decide)
  have h2 := (C7_resolve_invitation sAct pAct 5 (by decide)).1 (by decide)
  have h3 := ((C7_resolve_invitation sBase pUJ 5 (by decide)).2 (by decide)).1
    (by decide)
  exact ⟨h1.1, h1.2, h2, h3⟩

/-- C4 counterexample: an invite attempt by a plain MEMBER requesting role
OWNER fails with NotAuthorized — the authorization check precedes the
owner-role check — not with OwnerRoleUnique as the claim's "an attempt by
anyone" clause requires. -/
theorem C4_counterexample_member_requests_owner :
    gFull.user_in_group "m@x" = true
    ∧ gFull.user_is_owner "m@x" = false
    ∧ gFull.user_is_co_owner "m@x" = false
    ∧ invite sFull { group_id := "g1", email := "t@x", role := .owner } uMember 0
        = .err .notAuthorized := by
  decide

/-- C4 (amended): the invite role matrix as the code orders its checks:
a caller holding neither OWNER nor CO_OWNER (a plain member, or not in the
group) always fails NotAuthorized, whatever role is requested — this takes
precedence over OwnerRoleUnique; an OWNER or CO_OWNER requesting role OWNER
fails OwnerRoleUnique; a CO_OWNER requesting CO_OWNER for a target not
already in the group fails NotAuthorized; an OWNER (not also co-owner) may
invite CO_OWNER, and an OWNER or CO_OWNER may invite MEMBER, for a target
not already in the group. -/
theorem C4_amended_invite_role_matrix (s : DBState) (gi : GroupInvite)
    (caller : UserDB) (now : Int) (g : GroupDB)
    (hg : getGroupById s gi.group_id = .ok g) :
    ((g.user_is_owner caller.email || g.user_is_co_owner caller.email) = false →
      invite s gi caller now = .err .notAuthorized)
    ∧ ((g.user_is_owner caller.email || g.user_is_co_owner caller.email) = true →
        gi.role = .owner → invite s gi caller now = .err .ownerRoleUnique)
    ∧ (g.user_is_co_owner caller.email = true → gi.role = .coOwner →
        g.user_in_group gi.email = false →
        invite s gi caller now = .err .notAuthorized)
    ∧ (g.user_is_owner caller.email = true → g.user_is_co_owner caller.email = false →
        gi.role = .coOwner → g.user_in_group gi.email = false →
        ∃ (p : JwtPayload) (s₁ : DBState), invite s gi caller now = .ok (p, s₁)
          ∧ p.subject = .groupInviteCoOwner)
    ∧ ((g.user_is_owner caller.email || g.user_is_co_owner caller.email) = true →
        gi.role = .member → g.user_in_group gi.email = false →
        ∃ (p : JwtPayload) (s₁ : DBState), invite s gi caller now = .ok (p, s₁)
          ∧ p.subject = .groupInviteMember) := by
  refine ⟨?_, ?_, ?_, ?_, ?_⟩
  · intro hauth
    unfold invite
    rw [hg]
    simp only
    rw [hauth, if_neg (by decide : ¬(false = true))]
  · intro hauth hrole
    unfold invite
    rw [hg]
    simp only
    rw [hauth, if_pos rfl,
      show (gi.role == GroupRole.owner) = true by simp [hrole], if_pos rfl]
  · intro hco hrole hnin
    have hauth : (g.user_is_owner caller.email || g.user_is_co_owner caller.email)
        = true := by simp [hco]
    unfold invite
    rw [hg]
    simp only
    rw [hauth, if_pos rfl,
      show (gi.role == GroupRole.owner) = false by simp [hrole],
      if_neg (by decide : ¬(false = true))]
    cases hu : findUserByEmail s gi.email with
    | none =>
      simp only
      rw [show g.user_in_group ({ email := gi.email, username := "" } : UserDB).email
          = false from hnin, if_neg (by decide : ¬(false = true)),
        show (gi.role == GroupRole.coOwner) = true by simp [hrole], if_pos rfl,
        hco, if_pos rfl]
    | some u =>
      simp only
      rw [show g.user_in_group u.email = false by
          rw [findUserByEmail_email hu]; exact hnin,
        if_neg (by decide : ¬(false = true)),
        show (gi.role == GroupRole.coOwner) = true by simp [hrole], if_pos rfl,
        hco, if_pos rfl]
  · intro how hco hrole hnin
    have hauth : (g.user_is_owner caller.email || g.user_is_co_owner caller.email)
        = true := by simp [how]
    unfold invite
    rw [hg]
    simp only
    rw [hauth, if_pos rfl,
      show (gi.role == GroupRole.owner) = false by simp [hrole],
      if_neg (by decide : ¬(false = true))]
    cases hu : findUserByEmail s gi.email with
    | none =>
      simp only
      rw [show g.user_in_group ({ email := gi.email, username := "" } : UserDB).email
          = false from hnin, if_neg (by decide : ¬(false = true)),
        show (gi.role == GroupRole.coOwner) = true by simp [hrole], if_pos rfl,
        hco, if_neg (by decide : ¬(false = true))]
      exact ⟨_, _, rfl, rfl⟩
    | some u =>
      simp only
      rw [show g.user_in_group u.email = false by
          rw [findUserByEmail_email hu]; exact hnin,
        if_neg (by decide : ¬(false = true)),
        show (gi.role == GroupRole.coOwner) = true by simp [hrole], if_pos rfl,
        hco, if_neg (by decide : ¬(false = true))]
      exact ⟨_, _, rfl, rfl⟩
  · intro hauth hrole hnin
    unfold invite
    rw [hg]
    simp only
    rw [hauth, if_pos rfl,
      show (gi.role == GroupRole.owner) = false by simp [hrole],
      if_neg (by decide : ¬(false = true))]
    cases hu : findUserByEmail s gi.email with
    | none =>
      simp only
      rw [show g.user_in_group ({ email := gi.email, username := "" } : UserDB).email
          = false from hnin, if_neg (by decide : ¬(false = true)),
        show (gi.role == GroupRole.coOwner) = false by simp [hrole],
        if_neg (by decide : ¬(false = true))]
      exact ⟨_, _, rfl, rfl⟩
    | some u =>
      simp only
      rw [show g.user_in_group u.email = false by
          rw [findUserByEmail_email hu]; exact hnin,
        if_neg (by decide : ¬(false = true)),
        show (gi.role == GroupRole.coOwner) = false by simp [hrole],
        if_neg (by decide : ¬(false = true))]
      exact ⟨_, _, rfl, rfl⟩

/-- Witness for C4 (amended): in the populated group, each clause of the
matrix at a concrete request. -/
theorem C4_amended_invite_role_matrix_witness :
    invite sFull { group_id := "g1", email := "t@x", role := .member } uBob 0
        = .err .notAuthorized
    ∧ invite sFull { group_id := "g1", email := "t@x", role := .owner } uOwner 0
        = .err .ownerRoleUnique
    ∧ invite sFull { group_id := "g1", email := "t@x", role := .coOwner } uCo 0
        = .err .notAuthorized
    ∧ (∃ (p : JwtPayload) (s₁ : DBState),
        invite sFull { group_id := "g1", email := "t@x", role := .coOwner } uOwner 0
          = .ok (p, s₁) ∧ p.subject = .groupInviteCoOwner)
    ∧ (∃ (p : JwtPayload) (s₁ : DBState),
        invite sFull { group_id := "g1", email := "t@x", role := .member } uCo 0
          = .ok (p, s₁) ∧ p.subject = .groupInviteMember) :=
  ⟨(C4_amended_invite_role_matrix sFull _ uBob 0 gFull (by decide)).1 (by decide),
   (C4_amended_invite_role_matrix sFull _ uOwner 0 gFull (by decide)).2.1 (by decide) rfl,
   (C4_amended_invite_role_matrix sFull _ uCo 0 gFull (by decide)).2.2.1 (by decide) rfl
     (by decide),
   (C4_amended_invite_role_matrix sFull _ uOwner 0 gFull (by decide)).2.2.2.1
     (by decide) (by decide) rfl (by decide),
   (C4_amended_invite_role_matrix sFull _ uCo 0 gFull (by decide)).2.2.2.2
     (by decide) rfl (by decide)⟩

/-- Filtering out an element leaves a list that does not contain it. -/
theorem contains_filter_ne (l : List String) (e : String) :
    (l.filter (fun x => x != e)).contains e = false := by
  rw [Bool.eq_false_iff]
  intro hc
  simp at hc

/-- Updating a stored group is visible to a subsequent lookup of the same
id. -/
theorem getGroupById_updateGroup_self {s : DBState} {gid : String} {g : GroupDB}
    (f : GroupDB → GroupDB) (hg : getGroupById s gid = .ok g) :
    getGroupById (updateGroupInState s gid f) gid = .ok (f g) := by
  unfold getGroupById at hg ⊢
  rw [groups_find?_updateGroup]
  cases hf : s.groups.find? (fun p => p.1 == gid) with
  | none => rw [hf] at hg; exact absurd hg (by simp)
  | some pr =>
    rw [hf] at hg
    simp only [Outcome.ok.injEq] at hg
    have hkey : (pr.1 == gid) = true := by simpa using List.find?_some hf
    simp only [Option.map_some']
    rw [hkey, if_pos rfl]
    simp only
    rw [hg]

/-- After removing a non-owner user from a group, they are no longer in it. -/
theorem removeFromGroup_not_in_group {g : GroupDB} {e : String}
    (how : g.user_is_owner e = false) :
    (removeFromGroup g e).user_in_group e = false := by
  simp only [GroupDB.user_in_group, GroupDB.user_is_owner, GroupDB.user_is_co_owner,
    GroupDB.user_is_member, removeFromGroup] at how ⊢
  rw [how, contains_filter_ne, contains_filter_ne]
  rfl

/-- C5: the kick decision ladder — a caller outside the group or holding
only the MEMBER role fails NotAuthorized; for an authorized caller, a
registered target outside the group fails NotInGroup; kicking the OWNER
fails CannotKickOwner; a CO_OWNER kicking another CO_OWNER fails
CoOwnerCannotKickCoOwner; otherwise (OWNER kicking a co-owner or member,
CO_OWNER kicking a member) the target is removed from the group. -/
theorem C5_kick_matrix (s : DBState) (gk : GroupKick) (caller : UserDB)
    (g : GroupDB) (hg : getGroupById s gk.id = .ok g) :
    (g.user_in_group caller.email = false → kick s gk caller = .err .notAuthorized)
    ∧ (g.user_in_group caller.email = true →
        g.user_is_owner caller.email = false →
        g.user_is_co_owner caller.email = false →
        kick s gk caller = .err .notAuthorized)
    ∧ ∀ uk : UserDB, findUserByEmail s gk.email = some uk →
        (g.user_in_group caller.email = true →
          (g.user_is_owner caller.email || g.user_is_co_owner caller.email) = true →
          g.user_in_group uk.email = false → kick s gk caller = .err .notInGroup)
        ∧ (g.user_in_group caller.email = true →
            (g.user_is_owner caller.email || g.user_is_co_owner caller.email) = true →
            g.user_is_owner uk.email = true → kick s gk caller = .err .cannotKickOwner)
        ∧ (g.user_in_group caller.email = true →
            g.user_is_co_owner caller.email = true →
            g.user_is_owner uk.email = false → g.user_is_co_owner uk.email = true →
            kick s gk caller = .err .coOwnerCannotKickCoOwner)
        ∧ (g.user_in_group caller.email = true → g.user_is_owner caller.email = true →
            g.user_is_co_owner caller.email = false →
            g.user_in_group uk.email = true → g.user_is_owner uk.email = false →
            kick s gk caller
              = .ok (updateGroupInState s gk.id (fun h => removeFromGroup h uk.email))
            ∧ getGroupById
                (updateGroupInState s gk.id (fun h => removeFromGroup h uk.email)) gk.id
              = .ok (removeFromGroup g uk.email)
            ∧ (removeFromGroup g uk.email).user_in_group uk.email = false)
        ∧ (g.user_in_group caller.email = true →
            g.user_is_co_owner caller.email = true →
            g.user_in_group uk.email = true → g.user_is_owner uk.email = false →
            g.user_is_co_owner uk.email = false →
            kick s gk caller
              = .ok (updateGroupInState s gk.id (fun h => removeFromGroup h uk.email))
            ∧ (removeFromGroup g uk.email).user_in_group uk.email = false) := by
  refine ⟨?_, ?_, ?_⟩
  · intro hin
    unfold kick
    rw [hg]
    simp only
    rw [hin, if_neg (by decide : ¬(false = true))]
  · intro hin how hco
    unfold kick
    rw [hg]
    simp only
    rw [hin, if_pos rfl, how, hco, if_neg (by decide : ¬((false || false) = true))]
  · intro uk huk
    have hget : get_user_by_email s gk.email = .ok uk := by
      simp [get_user_by_email, huk]
    refine ⟨?_, ?_, ?_, ?_, ?_⟩
    · intro hin hauth htin
      unfold kick
      rw [hg]
      simp only
      rw [hin, if_pos rfl, hauth, if_pos rfl, hget]
      simp only
      rw [htin, if_neg (by decide : ¬(false = true))]
    · intro hin hauth htow
      unfold kick
      rw [hg]
      simp only
      rw [hin, if_pos rfl, hauth, if_pos rfl, hget]
      simp only
      rw [show g.user_in_group uk.email = true by
          simp [GroupDB.user_in_group, htow],
        if_pos rfl, htow, if_pos rfl]
    · intro hin hcoc htow htco
      unfold kick
      rw [hg]
      simp only
      rw [hin, if_pos rfl,
        show (g.user_is_owner caller.email || g.user_is_co_owner caller.email) = true by
          simp [hcoc],
        if_pos rfl, hget]
      simp only
      rw [show g.user_in_group uk.email = true by
          simp [GroupDB.user_in_group, htco],
        if_pos rfl, htow, if_neg (by decide : ¬(false = true)),
        show (g.user_is_co_owner uk.email && g.user_is_co_owner caller.email) = true by
          simp [htco, hcoc],
        if_pos rfl]
    · intro hin how hco htin htow
      refine ⟨?_, getGroupById_updateGroup_self _ hg, removeFromGroup_not_in_group htow⟩
      unfold kick
      rw [hg]
      simp only
      rw [hin, if_pos rfl,
        show (g.user_is_owner caller.email || g.user_is_co_owner caller.email) = true by
          simp [how],
        if_pos rfl, hget]
      simp only
      rw [htin, if_pos rfl, htow, if_neg (by decide : ¬(false = true)),
        show (g.user_is_co_owner uk.email && g.user_is_co_owner caller.email) = false by
          rw [hco]; simp,
        if_neg (by decide : ¬(false = true))]
    · intro hin hcoc htin htow htco
      refine ⟨?_, removeFromGroup_not_in_group htow⟩
      unfold kick
      rw [hg]
      simp only
      rw [hin, if_pos rfl,
        show (g.user_is_owner caller.email || g.user_is_co_owner caller.email) = true by
          simp [hcoc],
        if_pos rfl, hget]
      simp only
      rw [htin, if_pos rfl, htow, if_neg (by decide : ¬(false = true)),
        show (g.user_is_co_owner uk.email && g.user_is_co_owner caller.email) = false by
          rw [htco]; simp,
        if_neg (by decide : ¬(false = true))]

/-- Witness for C5: the kick ladder at concrete requests in the populated
group (owner o, co-owner w, member m, outsider b). -/
theorem C5_kick_matrix_witness :
    kick sFull { id := "g1", email := "m@x" } uBob = .err .notAuthorized
    ∧ kick sFull { id := "g1", email := "w@x" } uMember = .err .notAuthorized
    ∧ kick sFull { id := "g1", email := "b@x" } uOwner = .err .notInGroup
    ∧ kick sFull { id := "g1", email := "o@x" } uCo = .err .cannotKickOwner
    ∧ kick sFull { id := "g1", email := "w@x" } uCo = .err .coOwnerCannotKickCoOwner
    ∧ kick sFull { id := "g1", email := "w@x" } uOwner
        = .ok (updateGroupInState sFull "g1" (fun h => removeFromGroup h "w@x"))
    ∧ (removeFromGroup gFull "w@x").user_in_group "w@x" = false
    ∧ kick sFull { id := "g1", email := "m@x" } uCo
        = .ok (updateGroupInState sFull "g1" (fun h => removeFromGroup h "m@x")) := by
  have hbase := C5_kick_matrix sFull { id := "g1", email := "m@x" } uBob gFull (by decide)
  have h1 := hbase.1 (by decide)
  have h2 := (C5_kick_matrix sFull { id := "g1", email := "w@x" } uMember gFull
    (by decide)).2.1 (by decide) (by decide) (by decide)
  have h3 := ((C5_kick_matrix sFull { id := "g1", email := "b@x" } uOwner gFull
    (by decide)).2.2 uBob (by decide)).1 (by decide) (by decide) (by decide)
  have h4 := ((C5_kick_matrix sFull { id := "g1", email := "o@x" } uCo gFull
    (by decide)).2.2 uOwner (by decide)).2.1 (by decide) (by decide) (by decide)
  have h5 := ((C5_kick_matrix sFull { id := "g1", email := "w@x" } uCo gFull
    (by decide)).2.2 uCo (by decide)).2.2.1 (by decide) (by decide) (by decide)
    (by decide)
  have h6 := ((C5_kick_matrix sFull { id := "g1", email := "w@x" } uOwner gFull
    (by decide)).2.2 uCo (by decide)).2.2.2.1 (by decide) (by decide) (by decide)
    (by decide) (by decide)
  have h7 := ((C5_kick_matrix sFull { id := "g1", email := "m@x" } uCo gFull
    (by decide)).2.2 uMember (by decide)).2.2.2.2 (by decide) (by decide) (by decide)
    (by decide) (by decide)
  exact ⟨h1, h2, h3, h4, h5, h6.1, h6.2.2, h7.1⟩

/-- Evaluation of the join checks when everything passes. -/
theorem joinChecks_eval {s : DBState} {inv auth : Presented} {now : Int}
    {ui uc : UserTokenWrapper} {td : TokenDB} {gid : String} {g : GroupDB}
    (hui : get_user_from_invitation s inv now = .ok ui)
    (huc : get_current_user s auth now = .ok uc)
    (hem : (uc.user.email == ui.user.email) = true)
    (htd : get_token_db s ui.token = .ok td)
    (hus : td.used_at.isSome = false)
    (hgi : td.group_id = some gid)
    (hg : getGroupById s gid = .ok g) :
    joinChecks s inv auth now = .ok (gid, td, uc.user) := by
  unfold joinChecks
  rw [hui]
  simp only
  rw [huc]
  simp only
  rw [hem, if_pos rfl, htd]
  simp only
  rw [hus, if_neg (by decide : ¬(false = true)), hgi]
  simp only
  rw [hg]

theorem join_ok_of_checks {s : DBState} {inv auth : Presented} {now : Int}
    {gid : String} {td : TokenDB} {u : UserDB}
    (hc : joinChecks s inv auth now = .ok (gid, td, u)) :
    join s inv auth now
      = .ok (update_token
          (updateGroupInState s gid (fun g => addAsRole g (joinRole td) u.email))
          td.token now) := by
  unfold join
  rw [hc]

/-- C3: a user already holding any role in a group cannot be re-invited —
an (authorized, non-owner-role) invite attempt for them fails
AlreadyInGroup; and the invite-then-join round trip for a fresh member
leaves the joining user in the group's member set exactly once, with the
invitation token consumed. -/
theorem C3_no_reinvite_and_member_once (s : DBState) (gi : GroupInvite)
    (caller : UserDB) (now now₂ : Int) (g : GroupDB)
    (hg : getGroupById s gi.group_id = .ok g) :
    ((g.user_is_owner caller.email || g.user_is_co_owner caller.email) = true →
      gi.role ≠ .owner → g.user_in_group gi.email = true →
      invite s gi caller now = .err .alreadyInGroup)
    ∧ (∀ (target : UserDB) (p : JwtPayload) (s₁ : DBState) (aq : JwtPayload),
        gi.role = .member →
        g.user_is_owner caller.email = true →
        findUserByEmail s gi.email = some target →
        g.user_in_group gi.email = false →
        invite s gi caller now = .ok (p, s₁) →
        getTokenRec s p = none →
        aq.email = gi.email →
        ¬ aq.exp ≤ now₂ →
        ¬ p.exp ≤ now₂ →
        ∃ s₂ : DBState, join s₁ (.signed p) (.signed aq) now₂ = .ok s₂
          ∧ ∃ g₂ : GroupDB, getGroupById s₂ gi.group_id = .ok g₂
            ∧ g₂.members.count gi.email = 1
            ∧ consumedTheToken s₂ (.signed p) now₂) := by
  constructor
  · intro hauth hrole hin
    unfold invite
    rw [hg]
    simp only
    rw [hauth, if_pos rfl,
      show (gi.role == GroupRole.owner) = false by simpa using hrole,
      if_neg (by decide : ¬(false = true))]
    cases hu : findUserByEmail s gi.email with
    | none =>
      simp only
      rw [show g.user_in_group ({ email := gi.email, username := "" } : UserDB).email
          = true from hin, if_pos rfl]
    | some u =>
      simp only
      rw [show g.user_in_group u.email = true by
          rw [findUserByEmail_email hu]; exact hin, if_pos rfl]
  · intro target p s₁ aq hrole how hfind hnin hinv hfresh haqe haexp hpexp
    have hcomp : invite s gi caller now = .ok
        ((create_token
            { email := target.email, username := target.username,
              group_id := some gi.group_id, user_email_invited := some gi.email }
            (some GROUP_INVITE_MEMBER_TOKEN_EXPIRE_MINUTES) .groupInviteMember now).1,
          save_token s (create_token
            { email := target.email, username := target.username,
              group_id := some gi.group_id, user_email_invited := some gi.email }
            (some GROUP_INVITE_MEMBER_TOKEN_EXPIRE_MINUTES) .groupInviteMember now).2) := by
      unfold invite
      rw [hg]
      simp only
      rw [show (g.user_is_owner caller.email || g.user_is_co_owner caller.email)
          = true by simp [how], if_pos rfl,
        show (gi.role == GroupRole.owner) = false by simp [hrole],
        if_neg (by decide : ¬(false = true)), hfind]
      simp only
      rw [show g.user_in_group target.email = false by
          rw [findUserByEmail_email hfind]; exact hnin,
        if_neg (by decide : ¬(false = true)),
        show (gi.role == GroupRole.coOwner) = false by simp [hrole],
        if_neg (by decide : ¬(false = true))]
      rfl
    have hps := (hinv.symm.trans hcomp)
    simp only [Outcome.ok.injEq, Prod.mk.injEq] at hps
    obtain ⟨hp, hs⟩ := hps
    subst hp
    subst hs
    set C : Claims :=
      { email := target.email, username := target.username,
        group_id := some gi.group_id, user_email_invited := some gi.email } with hC
    set PAY : JwtPayload :=
      (create_token C (some GROUP_INVITE_MEMBER_TOKEN_EXPIRE_MINUTES)
        .groupInviteMember now).1 with hPAY
    set REC : TokenDB :=
      (create_token C (some GROUP_INVITE_MEMBER_TOKEN_EXPIRE_MINUTES)
        .groupInviteMember now).2 with hREC
    have hui' : get_user_from_invitation (save_token s REC) (.signed PAY) now₂
        = .ok { user := target, token := .signed PAY } :=
      get_user_from_invitation_eval hpexp rfl rfl hfind
    have huc' : get_current_user (save_token s REC) (.signed aq) now₂
        = .ok { user := target, token := .signed aq } :=
      get_current_user_eval haexp (by rw [haqe]; exact hfind)
    have hrecS : getTokenRec (save_token s REC) PAY = some REC := by
      rw [getTokenRec_save_token_of_none s REC PAY hfresh,
        show (REC.token == PAY) = true from beq_self_eq_true PAY, if_pos rfl]
    have hc := joinChecks_eval hui' huc' (beq_self_eq_true target.email)
      (get_token_db_eval hrecS) rfl rfl hg
    have hjoin := join_ok_of_checks hc
    refine ⟨_, hjoin, ?_⟩
    have hmem : g.members.contains gi.email = false := by
      revert hnin
      simp [GroupDB.user_in_group, GroupDB.user_is_owner, GroupDB.user_is_co_owner,
        GroupDB.user_is_member]
    have hadd : addAsRole g (joinRole REC) target.email
        = { g with members := g.members ++ [target.email] } := by
      show addAsRole g .member target.email = _
      unfold addAsRole
      rw [show (g.members.contains target.email) = false by
          rw [findUserByEmail_email hfind]; exact hmem,
        if_neg (by decide : ¬(false = true))]
    refine ⟨{ g with members := g.members ++ [target.email] }, ?_, ?_, ?_⟩
    · rw [getGroupById_update_token]
      rw [← hadd]
      exact getGroupById_updateGroup_self _ hg
    · simp only
      rw [List.count_append,
        show target.email = gi.email from findUserByEmail_email hfind,
        List.count_eq_zero_of_not_mem (by simpa using hmem),
        List.count_singleton_self]
    · refine ⟨PAY, { REC with used_at := some now₂ }, rfl, ?_, rfl⟩
      exact getTokenRec_after_consume (t := now₂)
        (show getTokenRec (updateGroupInState (save_token s REC) gi.group_id
          (fun h => addAsRole h (joinRole REC) target.email)) PAY = some REC
          from hrecS)

/-- Witness for C3: re-inviting the existing member m fails AlreadyInGroup;
the concrete invite-then-join round trip for Bob leaves him in g1's member
set exactly once with the token consumed. -/
theorem C3_no_reinvite_and_member_once_witness :
    invite sFull { group_id := "g1", email := "m@x", role := .member } uOwner 0
        = .err .alreadyInGroup
    ∧ ∃ s₂ : DBState, join sInv (.signed pInv) (.signed aBob) 5 = .ok s₂
        ∧ ∃ g₂ : GroupDB, getGroupById s₂ "g1" = .ok g₂
          ∧ g₂.members.count "b@x" = 1
          ∧ consumedTheToken s₂ (.signed pInv) 5 :=
  ⟨(C3_no_reinvite_and_member_once sFull
      { group_id := "g1", email := "m@x", role := .member } uOwner 0 0 gFull
      (by decide)).1 (by decide) (by decide) (by decide),
   (C3_no_reinvite_and_member_once sBase giBob uOwner 0 5 gBase (by decide)).2
      uBob pInv sInv aBob rfl (by decide) (by decide) (by decide) (by decide)
      (by decide) (by decide) (by decide) (by decide)⟩

/-! ### Crash-freedom of the workflows over the modelled token record -/

theorem decodeJwt_ne_crash (t : Presented) (now : Int) : decodeJwt t now ≠ .crash := by
  cases t with
  | garbage => simp [decodeJwt]
  | signed p =>
    simp only [decodeJwt]
    split <;> simp

theorem get_user_from_invitation_ne_crash (s : DBState) (t : Presented) (now : Int) :
    get_user_from_invitation s t now ≠ .crash := by
  unfold get_user_from_invitation
  cases hd : decodeJwt t now with
  | crash => exact absurd hd (decodeJwt_ne_crash t now)
  | err e => simp
  | ok p =>
    simp only
    split
    · simp
    · split <;> simp

theorem get_current_user_ne_crash (s : DBState) (t : Presented) (now : Int) :
    get_current_user s t now ≠ .crash := by
  unfold get_current_user
  cases hd : decodeJwt t now with
  | crash => exact absurd hd (decodeJwt_ne_crash t now)
  | err e => simp
  | ok p =>
    simp only
    split <;> simp

theorem get_token_db_ne_crash (s : DBState) (t : Presented) :
    get_token_db s t ≠ .crash := by
  cases t with
  | garbage => simp [get_token_db]
  | signed p =>
    simp only [get_token_db]
    split <;> simp

theorem getGroupById_ne_crash (s : DBState) (gid : String) :
    getGroupById s gid ≠ .crash := by
  unfold getGroupById
  split <;> simp

theorem joinChecks_ne_crash (s : DBState) (inv auth : Presented) (now : Int) :
    joinChecks s inv auth now ≠ .crash := by
  unfold joinChecks
  cases h1 : get_user_from_invitation s inv now with
  | crash => exact absurd h1 (get_user_from_invitation_ne_crash s inv now)
  | err e => simp
  | ok ui =>
    simp only
    cases h2 : get_current_user s auth now with
    | crash => exact absurd h2 (get_current_user_ne_crash s auth now)
    | err e => simp
    | ok uc =>
      simp only
      split
      · cases h3 : get_token_db s ui.token with
        | crash => exact absurd h3 (get_token_db_ne_crash s ui.token)
        | err e => simp
        | ok td =>
          simp only
          split
          · simp
          · cases h4 : td.group_id with
            | none => simp
            | some gid =>
              simp only
              cases h5 : getGroupById s gid with
              | crash => exact absurd h5 (getGroupById_ne_crash s gid)
              | err e => simp
              | ok g => simp
      · simp

theorem join_ne_crash (s : DBState) (inv auth : Presented) (now : Int) :
    join s inv auth now ≠ .crash := by
  unfold join
  cases hc : joinChecks s inv auth now with
  | crash => exact absurd hc (joinChecks_ne_crash s inv auth now)
  | err e => simp
  | ok trip =>
    obtain ⟨gid, td, u⟩ := trip
    simp

theorem activate_ne_crash (s : DBState) (auth : Presented) (now : Int) :
    activate s auth now ≠ .crash := by
  unfold activate
  cases h1 : get_current_user s auth now with
  | crash => exact absurd h1 (get_current_user_ne_crash s auth now)
  | err e => simp
  | ok uc =>
    simp only
    cases h2 : get_token_db s uc.token with
    | crash => exact absurd h2 (get_token_db_ne_crash s uc.token)
    | err e => simp
    | ok td =>
      simp only
      split
      · split <;> simp
      · simp

theorem change_password_ne_crash (s : DBState) (auth : Presented) (pw : String)
    (now : Int) : change_password s auth pw now ≠ .crash := by
  unfold change_password
  cases h1 : get_current_user s auth now with
  | crash => exact absurd h1 (get_current_user_ne_crash s auth now)
  | err e => simp
  | ok uc =>
    simp only
    cases h2 : get_token_db s uc.token with
    | crash => exact absurd h2 (get_token_db_ne_crash s uc.token)
    | err e => simp
    | ok td =>
      simp only
      split
      · split <;> simp
      · simp

theorem join_via_invitation_ne_crash (s : DBState) (inv auth : Presented)
    (now : Int) : join_via_invitation s inv auth now ≠ .crash := by
  unfold join_via_invitation
  cases h1 : get_user_from_invitation s inv now with
  | crash => exact absurd h1 (get_user_from_invitation_ne_crash s inv now)
  | err e => simp
  | ok ui =>
    simp only
    cases h2 : get_current_user s auth now with
    | crash => exact absurd h2 (get_current_user_ne_crash s auth now)
    | err e => simp
    | ok uc =>
      simp only
      cases h3 : get_token_db s ui.token with
      | crash => exact absurd h3 (get_token_db_ne_crash s ui.token)
      | err e => simp
      | ok td =>
        simp only
        split
        · split <;> simp
        · simp

/-- C10: over the spec-modelled token record, every field the workflows
read — used-at (join, activation, password change, user-invite acceptance),
group identifier (group join), invited-email (invitation resolution and
user-invite acceptance) — is defined on every token the service stores:
issuance initialises used-at and carries the group-id and invited-email
claims into the record (group-invite issuance sets both), the stored record
extends the declared src model (email, username, token, subject, expiry),
and none of the consuming workflows can reach an undefined-field crash. -/
theorem C10_token_reads_total
    (data : Claims) (delta : Option Int) (subject : TokenSubject) (now t : Int)
    (s : DBState) (inv auth : Presented) (pw : String) :
    ((create_token data delta subject now).2.used_at = none
      ∧ (create_token data delta subject now).2.group_id = data.group_id
      ∧ (create_token data delta subject now).2.user_email_invited
          = data.user_email_invited
      ∧ (create_token data delta subject now).2.declared
          = { email := data.email, username := data.username,
              token := (create_token data delta subject now).1,
              subject := subject,
              expire_datetime := (create_token data delta subject now).1.exp })
    ∧ (∀ (gi : GroupInvite) (target : UserDB) (sub2 : TokenSubject) (exp2 : Int),
        (process_invitation s gi target sub2 exp2 now).1.group_id = some gi.group_id
        ∧ (process_invitation s gi target sub2 exp2 now).1.user_email_invited
            = some gi.email)
    ∧ join s inv auth t ≠ .crash
    ∧ activate s auth t ≠ .crash
    ∧ change_password s auth pw t ≠ .crash
    ∧ join_via_invitation s inv auth t ≠ .crash :=
  ⟨⟨rfl, rfl, rfl, rfl⟩,
   fun gi target sub2 exp2 => ⟨rfl, rfl⟩,
   join_ne_crash s inv auth t,
   activate_ne_crash s auth t,
   change_password_ne_crash s auth pw t,
   join_via_invitation_ne_crash s inv auth t⟩

/-- Witness for C10 at concrete inputs. -/
theorem C10_token_reads_total_witness :
    join sInv (.signed pInv) (.signed aBob) 5 ≠ .crash
    ∧ (create_token { email := "a@x", username := "a" } none .activate 0).2.used_at
        = none :=
  ⟨(C10_token_reads_total { email := "a@x", username := "a" } none .activate 0 5
      sInv (.signed pInv) (.signed aBob) "").2.2.1,
   (C10_token_reads_total { email := "a@x", username := "a" } none .activate 0 5
      sInv (.signed pInv) (.signed aBob) "").1.1⟩

end ClockPoint
